import Mathlib

/-!
Shallow embedding of `src/domain/thirdpartyRequests/authorizations.ts` from the
thirdparty-api-adapter repository: the two relay operations
`forwardPostAuthorization` (Forwarder) and `forwardPostAuthorizationError`
(Error Escalator), together with the external collaborators they use
(endpoint resolver, outbound sender, Mustache URL rendering, error
normalization, span lifecycle).

External calls are modelled by an `Env` of oracles returning `Except` values;
each run of an operation returns its result together with a trace of observable
events (span creation/finish, endpoint lookups, outbound sends, escalation
calls), over which the specification's properties are stated.
-/

namespace ThirdpartyAdapter

/-! ## Characters and the Mustache fragment used for URL rendering -/

def lbrace : Char := Char.ofNat 123

def rbrace : Char := Char.ofNat 125

/-- HTML escaping applied by `mustache.js` to values interpolated through a
double-brace tag (entity map for the characters `& < > " ' / = ` and the
backtick). -/
def escapeHtmlChar (c : Char) : List Char :=
  if c = '&' then "&amp;".data
  else if c = '<' then "&lt;".data
  else if c = '>' then "&gt;".data
  else if c = '"' then "&quot;".data
  else if c = '\'' then "&#39;".data
  else if c = '/' then "&#x2F;".data
  else if c = '=' then "&#x3D;".data
  else if c = '`' then "&#x60;".data
  else [c]

def escapeHtml (s : List Char) : List Char :=
  s.foldr (fun c acc => escapeHtmlChar c ++ acc) []

/-- Scan for the closing `\x7d\x7d` of a Mustache tag: returns the tag body and
the remainder after the closing braces, or `none` when the tag is unclosed. -/
def splitTag : List Char → Option (List Char × List Char)
  | [] => none
  | c :: rest =>
    match rest with
    | [] => none
    | c2 :: rest2 =>
      if c = rbrace ∧ c2 = rbrace then some ([], rest2)
      else
        match splitTag rest with
        | none => none
        | some (n, r) => (c :: n, r)

def trimSpaces (s : List Char) : List Char :=
  ((s.dropWhile (· = ' ')).reverse.dropWhile (· = ' ')).reverse

/-- One step of Mustache interpolation with the view `\x7b ID: v \x7d`: a
double-brace tag whose trimmed body is `ID` renders as the HTML-escaped value,
any other tag (whose key is absent from the view) renders as the empty string,
ordinary text is copied, and an unclosed tag is left as literal text. This is
the fragment of `Mustache.render` exercised by the adapter's templates. -/
def renderAux (v : List Char) : Nat → List Char → List Char
  | 0, s => s
  | _ + 1, [] => []
  | fuel + 1, c :: rest =>
    if c = lbrace then
      match rest with
      | [] => [c]
      | c2 :: rest2 =>
        if c2 = lbrace then
          match splitTag rest2 with
          | none => c :: c2 :: rest2
          | some (name, r) =>
            (if trimSpaces name = "ID".data then escapeHtml v else []) ++ renderAux v fuel r
        else c :: renderAux v fuel rest
    else c :: renderAux v fuel rest

/-- `Mustache.render (tpl, \x7b ID: v \x7d)` as used at
`authorizations.ts` lines 77 and 148. -/
def mustacheRenderID (tpl : String) (v : String) : String :=
  String.mk (renderAux v.data tpl.data.length tpl.data)

/-- Follows the spec's words (C8): the result of literally substituting the
transactionRequestId for the single-brace `\x7bID\x7d` placeholder in a string,
with no other transformation. Used only to compare against the code's
`mustacheRenderID`. -/
def substLiteralAux (pat repl : List Char) : Nat → List Char → List Char
  | 0, s => s
  | _ + 1, [] => []
  | fuel + 1, c :: rest =>
    if (c :: rest).take pat.length = pat then
      repl ++ substLiteralAux pat repl fuel ((c :: rest).drop pat.length)
    else c :: substLiteralAux pat repl fuel rest

def specRenderID (tpl : String) (v : String) : String :=
  String.mk (substLiteralAux [lbrace, 'I', 'D', rbrace] v.data tpl.data.length tpl.data)

/-! ## Errors, payloads, headers, configuration -/

/-- An error value: either a plain thrown value (a raw JS `Error`/`TypeError`)
or an already-normalized `FSPIOPError` carrying an error code. -/
inductive ErrVal
  | raw (msg : String)
  | fspiop (code : Nat) (msg : String)
deriving DecidableEq, Repr

/-- Modelled from the spec: `ReformatFSPIOPError` lives in the external
`@mojaloop/central-services-error-handling` package (not under `src/`). Per
spec section 4.3 it converts any failure into a StandardError and "normalizing
an already-normalized error returns an equivalent value": an `FSPIOPError` is
returned unchanged, anything else is wrapped as an internal error
(Mojaloop generic internal error code 2001). -/
def ReformatFSPIOPError : ErrVal → ErrVal
  | ErrVal.fspiop c m => ErrVal.fspiop c m
  | ErrVal.raw m => ErrVal.fspiop 2001 m

/-- Modelled from the spec: `FSPIOPError.toApiErrorObject` (same external
package) serializes a StandardError to its wire shape, controlled by the two
`ERROR_HANDLING` booleans; kept abstract as the error value paired with the two
flags (an injective serialization). -/
structure ApiErrorObject where
  error : ErrVal
  includeCauseExtension : Bool
  truncateExtensions : Bool
deriving DecidableEq, Repr

def toApiErrorObject (e : ErrVal) (includeCauseExtension truncateExtensions : Bool) :
    ApiErrorObject :=
  ⟨e, includeCauseExtension, truncateExtensions⟩

/-- `PostAuthorizationPayload` from `authorizations.ts` lines 39-45. -/
structure PostAuthorizationPayload where
  challenge : String
  value : String
  consentId : String
  sourceAccountId : String
  status : String
deriving DecidableEq, Repr

/-- A request body handed to the outbound sender: the authorization payload on
the forwarding hop, a serialized API error object on the escalation hop. -/
inductive Payload
  | auth (p : PostAuthorizationPayload)
  | apiError (e : ApiErrorObject)
deriving DecidableEq, Repr

/-- The routing-header dictionary: the `fspiop-source` and `fspiop-destination`
fields (read through `Enum.Http.Headers.FSPIOP.SOURCE/DESTINATION`) plus all
remaining header fields, which the code never touches. -/
structure Headers where
  fspiopSource : String
  fspiopDestination : String
  rest : List (String × String)
deriving DecidableEq, Repr

/-- `Enum.Http.Headers.FSPIOP.SWITCH.value` from `central-services-shared`. -/
def FSPIOP_SWITCH_value : String := "switch"

inductive EndpointType
  | THIRDPARTY_TRANSACTIONS_AUTHORIZATIONS_POST
  | THIRDPARTY_CALLBACK_URL_TRANSACTION_REQUEST_AUTHORIZATIONS_PUT_ERROR
deriving DecidableEq, Repr

inductive RestMethod
  | POST
  | PUT
deriving DecidableEq, Repr

/-- `Enum.EndPoints.FspEndpointTemplates.THIRDPARTY_TRANSACTION_REQUEST_AUTHORIZATIONS_PUT_ERROR`
from `central-services-shared`: the error-callback path template passed at
line 104 (Mustache double-brace placeholder). -/
def PUT_ERROR_template : String :=
  "/thirdpartyRequests/transactions/\x7b\x7bID\x7d\x7d/authorizations/error"

structure ErrorHandlingConfig where
  includeCauseExtension : Bool
  truncateExtensions : Bool
deriving DecidableEq, Repr

/-- The configuration the adapter reads (`~/shared/config`). -/
structure Config where
  ENDPOINT_SERVICE_URL : String
  ERROR_HANDLING : ErrorHandlingConfig
deriving DecidableEq, Repr

/-! ## Spans and observable events -/

/-- The duck-typed optional `span` argument: its path in the trace tree, and
whether it actually offers the `getChild` capability (a malformed span object
lacks it, making `span.getChild(...)` throw a `TypeError`). -/
structure SpanInput where
  path : List String
  hasGetChild : Bool
deriving DecidableEq, Repr

/-- Observable events of one run: child-span creation, endpoint lookups,
outbound sends, span finishes (normal, and with error status via
`finishChildSpan`), and the Forwarder's invocation of the Error Escalator. -/
inductive Event
  | getChild (parent : List String) (name : String)
  | lookup (serviceUrl : String) (participantId : String) (endpointType : EndpointType)
  | send (url : String) (headers : Headers) (source : String) (destination : String)
      (method : RestMethod) (payload : Payload) (spanPath : Option (List String))
  | finish (spanPath : List String)
  | finishErr (e : ErrVal) (spanPath : List String)
  | escalCall (path : String) (headers : Headers) (transactionRequestId : String)
      (payload : Payload) (spanPath : Option (List String))
deriving DecidableEq, Repr

/-- The external collaborators (spec section 6): the endpoint resolver and the
outbound request sender, each of which may fail with an arbitrary error. -/
structure Env where
  getEndpoint : String → String → EndpointType → Except ErrVal String
  sendRequest : String → Headers → String → String → RestMethod → Payload →
      Option (List String) → Except ErrVal Unit

/-! ## The Error Escalator (`forwardPostAuthorizationError`, lines 132-176) -/

/-- The catch block of `forwardPostAuthorizationError` (lines 167-174):
normalize the caught failure, finish the child span with error status via
`finishChildSpan` when it exists and is not yet finished (the freshly created
child has not been finished by any earlier step), and re-raise the normalized
error. `finishChildSpan` itself comes from `src/shared/util`, which is not
included under `src/`; modelled from the spec: it finishes the given span with
error status, emitted here as a `finishErr` event. -/
def fpaeCatch (err : ErrVal) (childSpan : Option (List String)) :
    Except ErrVal Unit × List Event :=
  let fspiopError := ReformatFSPIOPError err
  match childSpan with
  | some sp => (Except.error fspiopError, [Event.finishErr fspiopError sp])
  | none => (Except.error fspiopError, [])

/-- Continuation of the Error Escalator once the outbound PUT has completed
(lines 160-174): success finishes the child span (guard at line 163, true for
the fresh child); failure goes through the catch block. Returns the events
following the send event. -/
def fpaeAfterSend (res : Except ErrVal Unit) (childSpan : Option (List String)) :
    Except ErrVal Unit × List Event :=
  match res with
  | Except.error err => fpaeCatch err childSpan
  | Except.ok _ =>
    match childSpan with
    | some sp => (Except.ok (), [Event.finish sp])
    | none => (Except.ok (), [])

/-- Continuation of the Error Escalator once endpoint resolution has completed
(lines 146-174): render the URL by Mustache substitution of the
transactionRequestId into `endpoint + path`, then issue the outbound PUT.
Returns the events following the lookup event. -/
def fpaeAfterLookup (env : Env) (path : String) (headers : Headers)
    (transactionRequestId : String) (payload : Payload) (childSpan : Option (List String))
    (res : Except ErrVal String) : Except ErrVal Unit × List Event :=
  match res with
  | Except.error err => fpaeCatch err childSpan
  | Except.ok endpoint =>
    let url := mustacheRenderID (endpoint ++ path) transactionRequestId
    let r := fpaeAfterSend
      (env.sendRequest url headers headers.fspiopSource headers.fspiopDestination
        RestMethod.PUT payload childSpan) childSpan
    (r.1, Event.send url headers headers.fspiopSource headers.fspiopDestination
      RestMethod.PUT payload childSpan :: r.2)

/-- The body of `forwardPostAuthorizationError` after child-span creation
(lines 138-175): resolve the error-callback endpoint of `fspiop-destination`,
then continue with render, send and span closure. -/
def fpaeWithChild (cfg : Config) (env : Env) (path : String) (headers : Headers)
    (transactionRequestId : String) (payload : Payload)
    (childSpan : Option (List String)) : Except ErrVal Unit × List Event :=
  let destinationDfspId := headers.fspiopDestination
  let endpointType :=
    EndpointType.THIRDPARTY_CALLBACK_URL_TRANSACTION_REQUEST_AUTHORIZATIONS_PUT_ERROR
  let r := fpaeAfterLookup env path headers transactionRequestId payload childSpan
    (env.getEndpoint cfg.ENDPOINT_SERVICE_URL destinationDfspId endpointType)
  (r.1, Event.lookup cfg.ENDPOINT_SERVICE_URL destinationDfspId endpointType :: r.2)

/-- `forwardPostAuthorizationError` (lines 132-176). Line 137,
`span?.getChild('forwardPostAuthorizationError')`: an absent span yields no
child; a present span lacking the `getChild` capability makes the call throw a
`TypeError` synchronously, before the try block, so nothing is caught, no event
occurs and the raw error propagates. -/
def forwardPostAuthorizationError (cfg : Config) (env : Env) (path : String)
    (headers : Headers) (transactionRequestId : String) (payload : Payload)
    (span : Option SpanInput) : Except ErrVal Unit × List Event :=
  match span with
  | none => fpaeWithChild cfg env path headers transactionRequestId payload none
  | some s =>
    if s.hasGetChild then
      let childPath := s.path ++ ["forwardPostAuthorizationError"]
      let r := fpaeWithChild cfg env path headers transactionRequestId payload (some childPath)
      (r.1, Event.getChild s.path "forwardPostAuthorizationError" :: r.2)
    else (Except.error (ErrVal.raw "span.getChild is not a function"), [])

/-! ## The Forwarder (`forwardPostAuthorization`, lines 59-117) -/

/-- The `errorHeaders` object built at lines 97-101: spread of the original
headers with `fspiop-source` set to the switch identifier and
`fspiop-destination` set to the original source participant; all other header
fields are carried over unchanged by the spread. -/
def reversedHeaders (headers : Headers) : Headers :=
  { headers with
    fspiopSource := FSPIOP_SWITCH_value
    fspiopDestination := headers.fspiopSource }

/-- The Forwarder's invocation of the Error Escalator (lines 103-109): the
error-callback path template, the reversed headers, the same
transactionRequestId, the normalized error serialized under the two
`ERROR_HANDLING` flags, and the Forwarder's own child span (which, being a real
span, offers `getChild`). -/
def escalationCall (cfg : Config) (env : Env) (headers : Headers)
    (transactionRequestId : String) (fspiopError : ErrVal)
    (childSpan : Option (List String)) : Except ErrVal Unit × List Event :=
  forwardPostAuthorizationError cfg env PUT_ERROR_template (reversedHeaders headers)
    transactionRequestId
    (Payload.apiError (toApiErrorObject fspiopError
      cfg.ERROR_HANDLING.includeCauseExtension cfg.ERROR_HANDLING.truncateExtensions))
    (childSpan.map fun p => SpanInput.mk p true)

/-- The catch block of `forwardPostAuthorization` (lines 95-114): build the
reversed headers, normalize the failure once, await the Error Escalator, and —
only when that await returns normally — finish the child span with error
status (guard at line 111; the escalator never finishes its caller's span) and
re-raise the original normalized failure. When the escalator itself raises,
that exception propagates out of the catch block: lines 111-114 are skipped. -/
def fpaCatch (cfg : Config) (env : Env) (headers : Headers)
    (transactionRequestId : String) (err : ErrVal) (childSpan : Option (List String)) :
    Except ErrVal Unit × List Event :=
  let errorHeaders := reversedHeaders headers
  let fspiopError := ReformatFSPIOPError err
  let errPayload := Payload.apiError (toApiErrorObject fspiopError
    cfg.ERROR_HANDLING.includeCauseExtension cfg.ERROR_HANDLING.truncateExtensions)
  let callEv := Event.escalCall PUT_ERROR_template errorHeaders transactionRequestId errPayload
    childSpan
  let sub := escalationCall cfg env headers transactionRequestId fspiopError childSpan
  match sub.1 with
  | Except.error escalErr => (Except.error escalErr, callEv :: sub.2)
  | Except.ok _ =>
    match childSpan with
    | some sp => (Except.error fspiopError, callEv :: (sub.2 ++ [Event.finishErr fspiopError sp]))
    | none => (Except.error fspiopError, callEv :: sub.2)

/-- Continuation of the Forwarder once the outbound POST has completed
(lines 89-114): success finishes the child span (guard at line 92, true for
the fresh child); failure goes through the catch block. Returns the events
following the send event. -/
def fpaAfterSend (cfg : Config) (env : Env) (headers : Headers)
    (transactionRequestId : String) (res : Except ErrVal Unit)
    (childSpan : Option (List String)) : Except ErrVal Unit × List Event :=
  match res with
  | Except.error err => fpaCatch cfg env headers transactionRequestId err childSpan
  | Except.ok _ =>
    match childSpan with
    | some sp => (Except.ok (), [Event.finish sp])
    | none => (Except.ok (), [])

/-- Continuation of the Forwarder once endpoint resolution has completed
(lines 76-114): render the URL by Mustache substitution of the
transactionRequestId into `endpoint + path`, then issue the outbound POST.
Returns the events following the lookup event. -/
def fpaAfterLookup (cfg : Config) (env : Env) (path : String) (headers : Headers)
    (transactionRequestId : String) (payload : Payload) (childSpan : Option (List String))
    (res : Except ErrVal String) : Except ErrVal Unit × List Event :=
  match res with
  | Except.error err => fpaCatch cfg env headers transactionRequestId err childSpan
  | Except.ok endpoint =>
    let url := mustacheRenderID (endpoint ++ path) transactionRequestId
    let r := fpaAfterSend cfg env headers transactionRequestId
      (env.sendRequest url headers headers.fspiopSource headers.fspiopDestination
        RestMethod.POST payload childSpan) childSpan
    (r.1, Event.send url headers headers.fspiopSource headers.fspiopDestination
      RestMethod.POST payload childSpan :: r.2)

/-- The body of `forwardPostAuthorization` after child-span creation
(lines 66-116): resolve the destination's authorizations-POST endpoint, then
continue with render, send and span closure. -/
def fpaWithChild (cfg : Config) (env : Env) (path : String) (headers : Headers)
    (transactionRequestId : String) (payload : Payload)
    (childSpan : Option (List String)) : Except ErrVal Unit × List Event :=
  let destinationDfspId := headers.fspiopDestination
  let endpointType := EndpointType.THIRDPARTY_TRANSACTIONS_AUTHORIZATIONS_POST
  let r := fpaAfterLookup cfg env path headers transactionRequestId payload childSpan
    (env.getEndpoint cfg.ENDPOINT_SERVICE_URL destinationDfspId endpointType)
  (r.1, Event.lookup cfg.ENDPOINT_SERVICE_URL destinationDfspId endpointType :: r.2)

/-- `forwardPostAuthorization` (lines 59-117). Line 65,
`span?.getChild('forwardPostAuthorization')`: same synchronous behaviour as the
escalator's line 137. -/
def forwardPostAuthorization (cfg : Config) (env : Env) (path : String)
    (headers : Headers) (transactionRequestId : String) (payload : Payload)
    (span : Option SpanInput) : Except ErrVal Unit × List Event :=
  match span with
  | none => fpaWithChild cfg env path headers transactionRequestId payload none
  | some s =>
    if s.hasGetChild then
      let childPath := s.path ++ ["forwardPostAuthorization"]
      let r := fpaWithChild cfg env path headers transactionRequestId payload (some childPath)
      (r.1, Event.getChild s.path "forwardPostAuthorization" :: r.2)
    else (Except.error (ErrVal.raw "span.getChild is not a function"), [])

/-! ## Derived views of a run, used to state the properties -/

/-- Outcome of the Forwarder's try block up to the outbound send (factoring of
lines 71-89), used to phrase "the forwarding attempt failed with `e`". -/
def fpaTryResult (cfg : Config) (env : Env) (path : String) (headers : Headers)
    (transactionRequestId : String) (payload : Payload)
    (childSpan : Option (List String)) : Except ErrVal Unit :=
  match env.getEndpoint cfg.ENDPOINT_SERVICE_URL headers.fspiopDestination
      EndpointType.THIRDPARTY_TRANSACTIONS_AUTHORIZATIONS_POST with
  | Except.error e => Except.error e
  | Except.ok endpoint =>
    env.sendRequest (mustacheRenderID (endpoint ++ path) transactionRequestId) headers
      headers.fspiopSource headers.fspiopDestination RestMethod.POST payload childSpan

/-- Outcome of the Error Escalator's try block up to the outbound send
(factoring of lines 143-160). -/
def fpaeTryResult (cfg : Config) (env : Env) (path : String) (headers : Headers)
    (transactionRequestId : String) (payload : Payload)
    (childSpan : Option (List String)) : Except ErrVal Unit :=
  match env.getEndpoint cfg.ENDPOINT_SERVICE_URL headers.fspiopDestination
      EndpointType.THIRDPARTY_CALLBACK_URL_TRANSACTION_REQUEST_AUTHORIZATIONS_PUT_ERROR with
  | Except.error e => Except.error e
  | Except.ok endpoint =>
    env.sendRequest (mustacheRenderID (endpoint ++ path) transactionRequestId) headers
      headers.fspiopSource headers.fspiopDestination RestMethod.PUT payload childSpan

/-- The child-span path an operation derives from its optional span argument. -/
def childSpanOf : Option SpanInput → String → Option (List String)
  | none, _ => none
  | some s, name => some (s.path ++ [name])

/-- A well-formed optional span argument: absent, or offering `getChild`. -/
def spanOk : Option SpanInput → Prop
  | none => True
  | some s => s.hasGetChild = true

/-- Number of finish events (normal or error-status) a trace records against a
given span path. -/
def finishCount (sp : List String) : List Event → Nat
  | [] => 0
  | Event.finish p :: tr => (if p = sp then 1 else 0) + finishCount sp tr
  | Event.finishErr _ p :: tr => (if p = sp then 1 else 0) + finishCount sp tr
  | _ :: tr => finishCount sp tr

def isEscalCall : Event → Bool
  | Event.escalCall _ _ _ _ _ => true
  | _ => false

/-- The escalation-invocation events of a trace. -/
def escalCalls (tr : List Event) : List Event := tr.filter isEscalCall

def isGetChild : Event → Bool
  | Event.getChild _ _ => true
  | _ => false

/-- The child-span-creation events of a trace. -/
def getChildEvents (tr : List Event) : List Event := tr.filter isGetChild

/-- The URLs of the outbound sends of a trace, in order. -/
def sendUrls : List Event → List String
  | [] => []
  | Event.send url _ _ _ _ _ _ :: tr => url :: sendUrls tr
  | _ :: tr => sendUrls tr

/-- Whether a trace records any network interaction (endpoint lookup or
outbound send). -/
def hasNetworkEvent (tr : List Event) : Bool :=
  tr.any fun e =>
    match e with
    | Event.lookup _ _ _ => true
    | Event.send _ _ _ _ _ _ _ => true
    | _ => false

/-- The headers carried by the escalation invocations of a trace, in order. -/
def escalHeaders : List Event → List Headers
  | [] => []
  | Event.escalCall _ h _ _ _ :: tr => h :: escalHeaders tr
  | _ :: tr => escalHeaders tr

/-- The parent-span arguments carried by the escalation invocations of a
trace, in order. -/
def escalSpanArgs : List Event → List (Option (List String))
  | [] => []
  | Event.escalCall _ _ _ _ sp :: tr => sp :: escalSpanArgs tr
  | _ :: tr => escalSpanArgs tr

instance : DecidableEq (Except ErrVal Unit) := fun a b =>
  match a, b with
  | Except.ok (), Except.ok () => isTrue rfl
  | Except.error x, Except.error y =>
    if h : x = y then isTrue (by rw [h]) else isFalse fun hc => h (by cases hc; rfl)
  | Except.ok _, Except.error _ => isFalse fun hc => by cases hc
  | Except.error _, Except.ok _ => isFalse fun hc => by cases hc

/-! ## Concrete fixtures used by the counterexamples and witnesses -/

def cfg0 : Config := ⟨"http://central-ledger", ⟨true, true⟩⟩

def headers0 : Headers := ⟨"dfspA", "dfspB", [("accept", "application/json")]⟩

def payload0 : Payload := Payload.auth ⟨"c1", "v1", "cs1", "acc1", "PENDING"⟩

def span0 : Option SpanInput := some ⟨["root"], true⟩

/-- Every external call succeeds. -/
def envAllOk : Env :=
  { getEndpoint := fun _ pid _ => Except.ok ("http://" ++ pid)
    sendRequest := fun _ _ _ _ _ _ _ => Except.ok () }

/-- The forwarding POST fails with a network error; the escalation PUT
succeeds. -/
def envFwdFail : Env :=
  { getEndpoint := fun _ pid _ => Except.ok ("http://" ++ pid)
    sendRequest := fun _ _ _ _ m _ _ =>
      match m with
      | RestMethod.POST => Except.error (ErrVal.raw "networkFail")
      | RestMethod.PUT => Except.ok () }

/-- The forwarding POST fails with a network error and the escalation PUT
fails with its own network error. -/
def envBothFail : Env :=
  { getEndpoint := fun _ pid _ => Except.ok ("http://" ++ pid)
    sendRequest := fun _ _ _ _ m _ _ =>
      match m with
      | RestMethod.POST => Except.error (ErrVal.raw "networkFail")
      | RestMethod.PUT => Except.error (ErrVal.raw "escalNetworkFail") }

/-- Endpoint resolution yields a fixed base URL and every send succeeds. -/
def envResolves : Env :=
  { getEndpoint := fun _ _ _ => Except.ok "http://dfspb.example"
    sendRequest := fun _ _ _ _ _ _ _ => Except.ok () }

/-- A path template containing the spec's single-brace placeholder text. -/
def pathBrace : String := "/tx/\x7bID\x7d/authorizations"

/-! ## Helper lemmas on trace projections -/

theorem finishCount_append (sp : List String) (a b : List Event) :
    finishCount sp (a ++ b) = finishCount sp a + finishCount sp b := by
  induction a with
  | nil => simp [finishCount]
  | cons e tr ih => cases e <;> simp [finishCount, ih, Nat.add_assoc]

theorem sendUrls_append (a b : List Event) :
    sendUrls (a ++ b) = sendUrls a ++ sendUrls b := by
  induction a with
  | nil => simp [sendUrls]
  | cons e tr ih => cases e <;> simp [sendUrls, ih]

theorem escalHeaders_append (a b : List Event) :
    escalHeaders (a ++ b) = escalHeaders a ++ escalHeaders b := by
  induction a with
  | nil => simp [escalHeaders]
  | cons e tr ih => cases e <;> simp [escalHeaders, ih]

theorem escalSpanArgs_append (a b : List Event) :
    escalSpanArgs (a ++ b) = escalSpanArgs a ++ escalSpanArgs b := by
  induction a with
  | nil => simp [escalSpanArgs]
  | cons e tr ih => cases e <;> simp [escalSpanArgs, ih]

theorem escalCalls_append (a b : List Event) :
    escalCalls (a ++ b) = escalCalls a ++ escalCalls b := by
  simp [escalCalls, List.filter_append]

theorem getChildEvents_append (a b : List Event) :
    getChildEvents (a ++ b) = getChildEvents a ++ getChildEvents b := by
  simp [getChildEvents, List.filter_append]

theorem finishCount_cons_getChild (sp p : List String) (n : String) (tr : List Event) :
    finishCount sp (Event.getChild p n :: tr) = finishCount sp tr := rfl

theorem finishCount_cons_lookup (sp : List String) (u pid : String) (et : EndpointType)
    (tr : List Event) :
    finishCount sp (Event.lookup u pid et :: tr) = finishCount sp tr := rfl

theorem finishCount_cons_send (sp : List String) (url : String) (h : Headers) (s d : String)
    (m : RestMethod) (p : Payload) (c : Option (List String)) (tr : List Event) :
    finishCount sp (Event.send url h s d m p c :: tr) = finishCount sp tr := rfl

theorem finishCount_cons_escalCall (sp : List String) (a : String) (h : Headers) (t : String)
    (p : Payload) (c : Option (List String)) (tr : List Event) :
    finishCount sp (Event.escalCall a h t p c :: tr) = finishCount sp tr := rfl

theorem finishCount_cons_finish (sp p : List String) (tr : List Event) :
    finishCount sp (Event.finish p :: tr) = (if p = sp then 1 else 0) + finishCount sp tr := rfl

theorem finishCount_cons_finishErr (sp : List String) (e : ErrVal) (p : List String)
    (tr : List Event) :
    finishCount sp (Event.finishErr e p :: tr) =
      (if p = sp then 1 else 0) + finishCount sp tr := rfl

theorem escalCalls_cons_escalCall (a : String) (h : Headers) (t : String) (p : Payload)
    (c : Option (List String)) (tr : List Event) :
    escalCalls (Event.escalCall a h t p c :: tr) =
      Event.escalCall a h t p c :: escalCalls tr := rfl

theorem escalCalls_cons_getChild (p : List String) (n : String) (tr : List Event) :
    escalCalls (Event.getChild p n :: tr) = escalCalls tr := rfl

theorem escalCalls_cons_lookup (u pid : String) (et : EndpointType) (tr : List Event) :
    escalCalls (Event.lookup u pid et :: tr) = escalCalls tr := rfl

theorem escalCalls_cons_send (url : String) (h : Headers) (s d : String) (m : RestMethod)
    (p : Payload) (c : Option (List String)) (tr : List Event) :
    escalCalls (Event.send url h s d m p c :: tr) = escalCalls tr := rfl

theorem escalCalls_cons_finish (p : List String) (tr : List Event) :
    escalCalls (Event.finish p :: tr) = escalCalls tr := rfl

theorem escalCalls_cons_finishErr (e : ErrVal) (p : List String) (tr : List Event) :
    escalCalls (Event.finishErr e p :: tr) = escalCalls tr := rfl

theorem getChildEvents_cons_getChild (p : List String) (n : String) (tr : List Event) :
    getChildEvents (Event.getChild p n :: tr) =
      Event.getChild p n :: getChildEvents tr := rfl

theorem getChildEvents_cons_escalCall (a : String) (h : Headers) (t : String) (p : Payload)
    (c : Option (List String)) (tr : List Event) :
    getChildEvents (Event.escalCall a h t p c :: tr) = getChildEvents tr := rfl

theorem getChildEvents_cons_lookup (u pid : String) (et : EndpointType) (tr : List Event) :
    getChildEvents (Event.lookup u pid et :: tr) = getChildEvents tr := rfl

theorem getChildEvents_cons_send (url : String) (h : Headers) (s d : String) (m : RestMethod)
    (p : Payload) (c : Option (List String)) (tr : List Event) :
    getChildEvents (Event.send url h s d m p c :: tr) = getChildEvents tr := rfl

theorem getChildEvents_cons_finish (p : List String) (tr : List Event) :
    getChildEvents (Event.finish p :: tr) = getChildEvents tr := rfl

theorem getChildEvents_cons_finishErr (e : ErrVal) (p : List String) (tr : List Event) :
    getChildEvents (Event.finishErr e p :: tr) = getChildEvents tr := rfl

theorem escalHeaders_cons_escalCall (a : String) (h : Headers) (t : String) (p : Payload)
    (c : Option (List String)) (tr : List Event) :
    escalHeaders (Event.escalCall a h t p c :: tr) = h :: escalHeaders tr := rfl

theorem escalHeaders_cons_getChild (p : List String) (n : String) (tr : List Event) :
    escalHeaders (Event.getChild p n :: tr) = escalHeaders tr := rfl

theorem escalHeaders_cons_finishErr (e : ErrVal) (p : List String) (tr : List Event) :
    escalHeaders (Event.finishErr e p :: tr) = escalHeaders tr := rfl

theorem escalSpanArgs_cons_escalCall (a : String) (h : Headers) (t : String) (p : Payload)
    (c : Option (List String)) (tr : List Event) :
    escalSpanArgs (Event.escalCall a h t p c :: tr) = c :: escalSpanArgs tr := rfl

theorem escalSpanArgs_cons_getChild (p : List String) (n : String) (tr : List Event) :
    escalSpanArgs (Event.getChild p n :: tr) = escalSpanArgs tr := rfl

theorem escalSpanArgs_cons_finishErr (e : ErrVal) (p : List String) (tr : List Event) :
    escalSpanArgs (Event.finishErr e p :: tr) = escalSpanArgs tr := rfl

theorem sendUrls_cons_send (url : String) (h : Headers) (s d : String) (m : RestMethod)
    (p : Payload) (c : Option (List String)) (tr : List Event) :
    sendUrls (Event.send url h s d m p c :: tr) = url :: sendUrls tr := rfl

theorem sendUrls_cons_lookup (u pid : String) (et : EndpointType) (tr : List Event) :
    sendUrls (Event.lookup u pid et :: tr) = sendUrls tr := rfl

theorem sendUrls_cons_getChild (p : List String) (n : String) (tr : List Event) :
    sendUrls (Event.getChild p n :: tr) = sendUrls tr := rfl

theorem sendUrls_cons_escalCall (a : String) (h : Headers) (t : String) (p : Payload)
    (c : Option (List String)) (tr : List Event) :
    sendUrls (Event.escalCall a h t p c :: tr) = sendUrls tr := rfl

theorem sendUrls_cons_finishErr (e : ErrVal) (p : List String) (tr : List Event) :
    sendUrls (Event.finishErr e p :: tr) = sendUrls tr := rfl

/-! ## Characterization of the Error Escalator's body -/

theorem fpaeCatch_result (err : ErrVal) (cs : Option (List String)) :
    (fpaeCatch err cs).1 = Except.error (ReformatFSPIOPError err) := by
  cases cs <;> rfl

theorem fpaeWithChild_ok (cfg : Config) (env : Env) (path : String) (headers : Headers)
    (tid : String) (payload : Payload) (cs : Option (List String))
    (h : fpaeTryResult cfg env path headers tid payload cs = Except.ok ()) :
    (fpaeWithChild cfg env path headers tid payload cs).1 = Except.ok () := by
  rw [fpaeTryResult] at h
  simp only [fpaeWithChild]
  cases hE : env.getEndpoint cfg.ENDPOINT_SERVICE_URL headers.fspiopDestination
      EndpointType.THIRDPARTY_CALLBACK_URL_TRANSACTION_REQUEST_AUTHORIZATIONS_PUT_ERROR with
  | error e => rw [hE] at h; simp at h
  | ok endpoint =>
    rw [hE] at h
    simp only [] at h
    cases cs <;> simp [fpaeAfterLookup, fpaeAfterSend, h]

theorem fpaeWithChild_err (cfg : Config) (env : Env) (path : String) (headers : Headers)
    (tid : String) (payload : Payload) (cs : Option (List String)) (e : ErrVal)
    (h : fpaeTryResult cfg env path headers tid payload cs = Except.error e) :
    (fpaeWithChild cfg env path headers tid payload cs).1 =
      Except.error (ReformatFSPIOPError e) := by
  rw [fpaeTryResult] at h
  simp only [fpaeWithChild]
  cases hE : env.getEndpoint cfg.ENDPOINT_SERVICE_URL headers.fspiopDestination
      EndpointType.THIRDPARTY_CALLBACK_URL_TRANSACTION_REQUEST_AUTHORIZATIONS_PUT_ERROR with
  | error e' =>
    rw [hE] at h
    simp only [Except.error.injEq] at h
    subst h
    simp [fpaeAfterLookup, fpaeCatch_result]
  | ok endpoint =>
    rw [hE] at h
    simp only [] at h
    simp [fpaeAfterLookup, fpaeAfterSend, h, fpaeCatch_result]

theorem fpaeWithChild_finishCount (cfg : Config) (env : Env) (path : String)
    (headers : Headers) (tid : String) (payload : Payload) (c : List String)
    (sp : List String) :
    finishCount sp (fpaeWithChild cfg env path headers tid payload (some c)).2 =
      if c = sp then 1 else 0 := by
  simp only [fpaeWithChild]
  cases hE : env.getEndpoint cfg.ENDPOINT_SERVICE_URL headers.fspiopDestination
      EndpointType.THIRDPARTY_CALLBACK_URL_TRANSACTION_REQUEST_AUTHORIZATIONS_PUT_ERROR with
  | error e => simp [fpaeAfterLookup, fpaeCatch, finishCount]
  | ok endpoint =>
    cases hS : env.sendRequest (mustacheRenderID (endpoint ++ path) tid) headers
        headers.fspiopSource headers.fspiopDestination RestMethod.PUT payload (some c) with
    | error e => simp [fpaeAfterLookup, fpaeAfterSend, hS, fpaeCatch, finishCount]
    | ok u => simp [fpaeAfterLookup, fpaeAfterSend, hS, finishCount]

theorem fpaeWithChild_finishCount_none (cfg : Config) (env : Env) (path : String)
    (headers : Headers) (tid : String) (payload : Payload) (sp : List String) :
    finishCount sp (fpaeWithChild cfg env path headers tid payload none).2 = 0 := by
  simp only [fpaeWithChild]
  cases hE : env.getEndpoint cfg.ENDPOINT_SERVICE_URL headers.fspiopDestination
      EndpointType.THIRDPARTY_CALLBACK_URL_TRANSACTION_REQUEST_AUTHORIZATIONS_PUT_ERROR with
  | error e => simp [fpaeAfterLookup, fpaeCatch, finishCount]
  | ok endpoint =>
    cases hS : env.sendRequest (mustacheRenderID (endpoint ++ path) tid) headers
        headers.fspiopSource headers.fspiopDestination RestMethod.PUT payload none with
    | error e => simp [fpaeAfterLookup, fpaeAfterSend, hS, fpaeCatch, finishCount]
    | ok u => simp [fpaeAfterLookup, fpaeAfterSend, hS, finishCount]

theorem fpaeWithChild_escalCalls (cfg : Config) (env : Env) (path : String)
    (headers : Headers) (tid : String) (payload : Payload) (cs : Option (List String)) :
    escalCalls (fpaeWithChild cfg env path headers tid payload cs).2 = [] := by
  simp only [fpaeWithChild]
  cases hE : env.getEndpoint cfg.ENDPOINT_SERVICE_URL headers.fspiopDestination
      EndpointType.THIRDPARTY_CALLBACK_URL_TRANSACTION_REQUEST_AUTHORIZATIONS_PUT_ERROR with
  | error e => cases cs <;> simp [fpaeAfterLookup, fpaeCatch, escalCalls, isEscalCall]
  | ok endpoint =>
    cases hS : env.sendRequest (mustacheRenderID (endpoint ++ path) tid) headers
        headers.fspiopSource headers.fspiopDestination RestMethod.PUT payload cs with
    | error e =>
      cases cs <;> simp [fpaeAfterLookup, fpaeAfterSend, hS, fpaeCatch, escalCalls, isEscalCall]
    | ok u => cases cs <;> simp [fpaeAfterLookup, fpaeAfterSend, hS, escalCalls, isEscalCall]

theorem fpaeWithChild_getChild (cfg : Config) (env : Env) (path : String)
    (headers : Headers) (tid : String) (payload : Payload) (cs : Option (List String)) :
    getChildEvents (fpaeWithChild cfg env path headers tid payload cs).2 = [] := by
  simp only [fpaeWithChild]
  cases hE : env.getEndpoint cfg.ENDPOINT_SERVICE_URL headers.fspiopDestination
      EndpointType.THIRDPARTY_CALLBACK_URL_TRANSACTION_REQUEST_AUTHORIZATIONS_PUT_ERROR with
  | error e => cases cs <;> simp [fpaeAfterLookup, fpaeCatch, getChildEvents, isGetChild]
  | ok endpoint =>
    cases hS : env.sendRequest (mustacheRenderID (endpoint ++ path) tid) headers
        headers.fspiopSource headers.fspiopDestination RestMethod.PUT payload cs with
    | error e =>
      cases cs <;>
        simp [fpaeAfterLookup, fpaeAfterSend, hS, fpaeCatch, getChildEvents, isGetChild]
    | ok u => cases cs <;> simp [fpaeAfterLookup, fpaeAfterSend, hS, getChildEvents, isGetChild]

theorem fpaeWithChild_escalHeaders (cfg : Config) (env : Env) (path : String)
    (headers : Headers) (tid : String) (payload : Payload) (cs : Option (List String)) :
    escalHeaders (fpaeWithChild cfg env path headers tid payload cs).2 = [] := by
  simp only [fpaeWithChild]
  cases hE : env.getEndpoint cfg.ENDPOINT_SERVICE_URL headers.fspiopDestination
      EndpointType.THIRDPARTY_CALLBACK_URL_TRANSACTION_REQUEST_AUTHORIZATIONS_PUT_ERROR with
  | error e => cases cs <;> simp [fpaeAfterLookup, fpaeCatch, escalHeaders]
  | ok endpoint =>
    cases hS : env.sendRequest (mustacheRenderID (endpoint ++ path) tid) headers
        headers.fspiopSource headers.fspiopDestination RestMethod.PUT payload cs with
    | error e => cases cs <;> simp [fpaeAfterLookup, fpaeAfterSend, hS, fpaeCatch, escalHeaders]
    | ok u => cases cs <;> simp [fpaeAfterLookup, fpaeAfterSend, hS, escalHeaders]

theorem fpaeWithChild_escalSpanArgs (cfg : Config) (env : Env) (path : String)
    (headers : Headers) (tid : String) (payload : Payload) (cs : Option (List String)) :
    escalSpanArgs (fpaeWithChild cfg env path headers tid payload cs).2 = [] := by
  simp only [fpaeWithChild]
  cases hE : env.getEndpoint cfg.ENDPOINT_SERVICE_URL headers.fspiopDestination
      EndpointType.THIRDPARTY_CALLBACK_URL_TRANSACTION_REQUEST_AUTHORIZATIONS_PUT_ERROR with
  | error e => cases cs <;> simp [fpaeAfterLookup, fpaeCatch, escalSpanArgs]
  | ok endpoint =>
    cases hS : env.sendRequest (mustacheRenderID (endpoint ++ path) tid) headers
        headers.fspiopSource headers.fspiopDestination RestMethod.PUT payload cs with
    | error e => cases cs <;> simp [fpaeAfterLookup, fpaeAfterSend, hS, fpaeCatch, escalSpanArgs]
    | ok u => cases cs <;> simp [fpaeAfterLookup, fpaeAfterSend, hS, escalSpanArgs]

theorem fpaeWithChild_sendUrls (cfg : Config) (env : Env) (path : String)
    (headers : Headers) (tid : String) (payload : Payload) (cs : Option (List String))
    (endpoint : String)
    (h : env.getEndpoint cfg.ENDPOINT_SERVICE_URL headers.fspiopDestination
      EndpointType.THIRDPARTY_CALLBACK_URL_TRANSACTION_REQUEST_AUTHORIZATIONS_PUT_ERROR =
      Except.ok endpoint) :
    sendUrls (fpaeWithChild cfg env path headers tid payload cs).2 =
      [mustacheRenderID (endpoint ++ path) tid] := by
  simp only [fpaeWithChild, h]
  cases hS : env.sendRequest (mustacheRenderID (endpoint ++ path) tid) headers
      headers.fspiopSource headers.fspiopDestination RestMethod.PUT payload cs with
  | error e => cases cs <;> simp [fpaeAfterLookup, fpaeAfterSend, hS, fpaeCatch, sendUrls]
  | ok u => cases cs <;> simp [fpaeAfterLookup, fpaeAfterSend, hS, sendUrls]

theorem fpaeWithChild_err_trace (cfg : Config) (env : Env) (path : String)
    (headers : Headers) (tid : String) (payload : Payload) (c : List String) (e : ErrVal)
    (h : fpaeTryResult cfg env path headers tid payload (some c) = Except.error e) :
    ∃ pre, (fpaeWithChild cfg env path headers tid payload (some c)).2 =
      pre ++ [Event.finishErr (ReformatFSPIOPError e) c] := by
  rw [fpaeTryResult] at h
  simp only [fpaeWithChild]
  cases hE : env.getEndpoint cfg.ENDPOINT_SERVICE_URL headers.fspiopDestination
      EndpointType.THIRDPARTY_CALLBACK_URL_TRANSACTION_REQUEST_AUTHORIZATIONS_PUT_ERROR with
  | error e' =>
    rw [hE] at h
    simp only [Except.error.injEq] at h
    subst h
    refine ⟨[Event.lookup cfg.ENDPOINT_SERVICE_URL headers.fspiopDestination
      EndpointType.THIRDPARTY_CALLBACK_URL_TRANSACTION_REQUEST_AUTHORIZATIONS_PUT_ERROR], ?_⟩
    simp [fpaeAfterLookup, fpaeCatch]
  | ok endpoint =>
    rw [hE] at h
    simp only [] at h
    refine ⟨[Event.lookup cfg.ENDPOINT_SERVICE_URL headers.fspiopDestination
        EndpointType.THIRDPARTY_CALLBACK_URL_TRANSACTION_REQUEST_AUTHORIZATIONS_PUT_ERROR,
      Event.send (mustacheRenderID (endpoint ++ path) tid) headers headers.fspiopSource
        headers.fspiopDestination RestMethod.PUT payload (some c)], ?_⟩
    simp [fpaeAfterLookup, fpaeAfterSend, h, fpaeCatch]

/-! ## Characterization of the escalation call and the Forwarder's catch block -/

theorem fpae_eq_some (cfg : Config) (env : Env) (path : String) (headers : Headers)
    (tid : String) (payload : Payload) (s : SpanInput) (h : s.hasGetChild = true) :
    forwardPostAuthorizationError cfg env path headers tid payload (some s) =
      ((fpaeWithChild cfg env path headers tid payload
          (some (s.path ++ ["forwardPostAuthorizationError"]))).1,
        Event.getChild s.path "forwardPostAuthorizationError" ::
          (fpaeWithChild cfg env path headers tid payload
            (some (s.path ++ ["forwardPostAuthorizationError"]))).2) := by
  simp [forwardPostAuthorizationError, h]

theorem fpae_eq_none (cfg : Config) (env : Env) (path : String) (headers : Headers)
    (tid : String) (payload : Payload) :
    forwardPostAuthorizationError cfg env path headers tid payload none =
      fpaeWithChild cfg env path headers tid payload none := rfl

theorem escalationCall_some (cfg : Config) (env : Env) (headers : Headers) (tid : String)
    (fe : ErrVal) (c : List String) :
    escalationCall cfg env headers tid fe (some c) =
      ((fpaeWithChild cfg env PUT_ERROR_template (reversedHeaders headers) tid
          (Payload.apiError (toApiErrorObject fe cfg.ERROR_HANDLING.includeCauseExtension
            cfg.ERROR_HANDLING.truncateExtensions))
          (some (c ++ ["forwardPostAuthorizationError"]))).1,
        Event.getChild c "forwardPostAuthorizationError" ::
          (fpaeWithChild cfg env PUT_ERROR_template (reversedHeaders headers) tid
            (Payload.apiError (toApiErrorObject fe cfg.ERROR_HANDLING.includeCauseExtension
              cfg.ERROR_HANDLING.truncateExtensions))
            (some (c ++ ["forwardPostAuthorizationError"]))).2) := by
  rw [escalationCall]
  exact fpae_eq_some cfg env PUT_ERROR_template (reversedHeaders headers) tid _ ⟨c, true⟩ rfl

theorem escalationCall_none (cfg : Config) (env : Env) (headers : Headers) (tid : String)
    (fe : ErrVal) :
    escalationCall cfg env headers tid fe none =
      fpaeWithChild cfg env PUT_ERROR_template (reversedHeaders headers) tid
        (Payload.apiError (toApiErrorObject fe cfg.ERROR_HANDLING.includeCauseExtension
          cfg.ERROR_HANDLING.truncateExtensions)) none := rfl

theorem escalationCall_some_snd (cfg : Config) (env : Env) (headers : Headers) (tid : String)
    (fe : ErrVal) (c : List String) :
    (escalationCall cfg env headers tid fe (some c)).2 =
      Event.getChild c "forwardPostAuthorizationError" ::
        (fpaeWithChild cfg env PUT_ERROR_template (reversedHeaders headers) tid
          (Payload.apiError (toApiErrorObject fe cfg.ERROR_HANDLING.includeCauseExtension
            cfg.ERROR_HANDLING.truncateExtensions))
          (some (c ++ ["forwardPostAuthorizationError"]))).2 := by
  rw [escalationCall_some]

theorem escalationCall_finishCount_some (cfg : Config) (env : Env) (headers : Headers)
    (tid : String) (fe : ErrVal) (c : List String) (sp : List String) :
    finishCount sp (escalationCall cfg env headers tid fe (some c)).2 =
      if c ++ ["forwardPostAuthorizationError"] = sp then 1 else 0 := by
  rw [escalationCall_some_snd, finishCount_cons_getChild]
  exact fpaeWithChild_finishCount cfg env PUT_ERROR_template (reversedHeaders headers) tid _ _ sp

theorem escalationCall_finishCount_none (cfg : Config) (env : Env) (headers : Headers)
    (tid : String) (fe : ErrVal) (sp : List String) :
    finishCount sp (escalationCall cfg env headers tid fe none).2 = 0 := by
  rw [escalationCall_none]
  exact fpaeWithChild_finishCount_none cfg env PUT_ERROR_template (reversedHeaders headers)
    tid _ sp

theorem escalationCall_escalCalls (cfg : Config) (env : Env) (headers : Headers)
    (tid : String) (fe : ErrVal) (cs : Option (List String)) :
    escalCalls (escalationCall cfg env headers tid fe cs).2 = [] := by
  cases cs with
  | none => rw [escalationCall_none]; exact fpaeWithChild_escalCalls _ _ _ _ _ _ _
  | some c =>
    rw [escalationCall_some]
    simp [escalCalls, isEscalCall]
    have := fpaeWithChild_escalCalls cfg env PUT_ERROR_template (reversedHeaders headers) tid
      (Payload.apiError (toApiErrorObject fe cfg.ERROR_HANDLING.includeCauseExtension
        cfg.ERROR_HANDLING.truncateExtensions)) (some (c ++ ["forwardPostAuthorizationError"]))
    simpa [escalCalls] using this

theorem escalationCall_getChild_some (cfg : Config) (env : Env) (headers : Headers)
    (tid : String) (fe : ErrVal) (c : List String) :
    getChildEvents (escalationCall cfg env headers tid fe (some c)).2 =
      [Event.getChild c "forwardPostAuthorizationError"] := by
  rw [escalationCall_some]
  have := fpaeWithChild_getChild cfg env PUT_ERROR_template (reversedHeaders headers) tid
    (Payload.apiError (toApiErrorObject fe cfg.ERROR_HANDLING.includeCauseExtension
      cfg.ERROR_HANDLING.truncateExtensions)) (some (c ++ ["forwardPostAuthorizationError"]))
  simp [getChildEvents, isGetChild] at this ⊢
  exact this

theorem escalationCall_escalHeaders (cfg : Config) (env : Env) (headers : Headers)
    (tid : String) (fe : ErrVal) (cs : Option (List String)) :
    escalHeaders (escalationCall cfg env headers tid fe cs).2 = [] := by
  cases cs with
  | none => rw [escalationCall_none]; exact fpaeWithChild_escalHeaders _ _ _ _ _ _ _
  | some c =>
    rw [escalationCall_some]
    have := fpaeWithChild_escalHeaders cfg env PUT_ERROR_template (reversedHeaders headers) tid
      (Payload.apiError (toApiErrorObject fe cfg.ERROR_HANDLING.includeCauseExtension
        cfg.ERROR_HANDLING.truncateExtensions)) (some (c ++ ["forwardPostAuthorizationError"]))
    simpa [escalHeaders] using this

theorem escalationCall_escalSpanArgs (cfg : Config) (env : Env) (headers : Headers)
    (tid : String) (fe : ErrVal) (cs : Option (List String)) :
    escalSpanArgs (escalationCall cfg env headers tid fe cs).2 = [] := by
  cases cs with
  | none => rw [escalationCall_none]; exact fpaeWithChild_escalSpanArgs _ _ _ _ _ _ _
  | some c =>
    rw [escalationCall_some]
    have := fpaeWithChild_escalSpanArgs cfg env PUT_ERROR_template (reversedHeaders headers) tid
      (Payload.apiError (toApiErrorObject fe cfg.ERROR_HANDLING.includeCauseExtension
        cfg.ERROR_HANDLING.truncateExtensions)) (some (c ++ ["forwardPostAuthorizationError"]))
    simpa [escalSpanArgs] using this

theorem fpaCatch_result_ok (cfg : Config) (env : Env) (headers : Headers) (tid : String)
    (err : ErrVal) (cs : Option (List String))
    (h : (escalationCall cfg env headers tid (ReformatFSPIOPError err) cs).1 = Except.ok ()) :
    (fpaCatch cfg env headers tid err cs).1 =
      Except.error (ReformatFSPIOPError err) := by
  simp only [fpaCatch]
  rw [h]
  cases cs <;> rfl

theorem fpaCatch_result_err (cfg : Config) (env : Env) (headers : Headers) (tid : String)
    (err : ErrVal) (cs : Option (List String)) (e2 : ErrVal)
    (h : (escalationCall cfg env headers tid (ReformatFSPIOPError err) cs).1 =
      Except.error e2) :
    (fpaCatch cfg env headers tid err cs).1 = Except.error e2 := by
  simp only [fpaCatch]
  rw [h]

theorem fpaCatch_escalCalls (cfg : Config) (env : Env) (headers : Headers) (tid : String)
    (err : ErrVal) (cs : Option (List String)) :
    escalCalls (fpaCatch cfg env headers tid err cs).2 =
      [Event.escalCall PUT_ERROR_template (reversedHeaders headers) tid
        (Payload.apiError (toApiErrorObject (ReformatFSPIOPError err)
          cfg.ERROR_HANDLING.includeCauseExtension cfg.ERROR_HANDLING.truncateExtensions))
        cs] := by
  simp only [fpaCatch]
  cases h : (escalationCall cfg env headers tid (ReformatFSPIOPError err) cs).1 with
  | error e2 =>
    dsimp only
    rw [escalCalls_cons_escalCall, escalationCall_escalCalls]
  | ok u =>
    cases cs with
    | none =>
      dsimp only
      rw [escalCalls_cons_escalCall, escalationCall_escalCalls]
    | some c =>
      dsimp only
      rw [escalCalls_cons_escalCall, escalCalls_append, escalationCall_escalCalls,
        escalCalls_cons_finishErr]
      rfl

theorem fpaCatch_finishCount_some_ok (cfg : Config) (env : Env) (headers : Headers)
    (tid : String) (err : ErrVal) (c : List String) (sp : List String)
    (h : (escalationCall cfg env headers tid (ReformatFSPIOPError err) (some c)).1 =
      Except.ok ()) :
    finishCount sp (fpaCatch cfg env headers tid err (some c)).2 =
      (if c ++ ["forwardPostAuthorizationError"] = sp then 1 else 0) +
      (if c = sp then 1 else 0) := by
  simp only [fpaCatch]
  rw [h]
  dsimp only
  rw [finishCount_cons_escalCall, finishCount_append, escalationCall_finishCount_some,
    finishCount_cons_finishErr]
  simp [finishCount]

theorem fpaCatch_finishCount_some_err (cfg : Config) (env : Env) (headers : Headers)
    (tid : String) (err : ErrVal) (c : List String) (sp : List String) (e2 : ErrVal)
    (h : (escalationCall cfg env headers tid (ReformatFSPIOPError err) (some c)).1 =
      Except.error e2) :
    finishCount sp (fpaCatch cfg env headers tid err (some c)).2 =
      (if c ++ ["forwardPostAuthorizationError"] = sp then 1 else 0) := by
  simp only [fpaCatch]
  rw [h]
  dsimp only
  rw [finishCount_cons_escalCall, escalationCall_finishCount_some]

theorem fpaCatch_finishCount_none (cfg : Config) (env : Env) (headers : Headers)
    (tid : String) (err : ErrVal) (sp : List String) :
    finishCount sp (fpaCatch cfg env headers tid err none).2 = 0 := by
  simp only [fpaCatch]
  cases h : (escalationCall cfg env headers tid (ReformatFSPIOPError err) none).1 with
  | error e2 =>
    dsimp only
    rw [finishCount_cons_escalCall, escalationCall_finishCount_none]
  | ok u =>
    dsimp only
    rw [finishCount_cons_escalCall, escalationCall_finishCount_none]

theorem fpaCatch_getChild_some (cfg : Config) (env : Env) (headers : Headers) (tid : String)
    (err : ErrVal) (c : List String) :
    getChildEvents (fpaCatch cfg env headers tid err (some c)).2 =
      [Event.getChild c "forwardPostAuthorizationError"] := by
  simp only [fpaCatch]
  cases h : (escalationCall cfg env headers tid (ReformatFSPIOPError err) (some c)).1 with
  | error e2 =>
    simp [getChildEvents, isGetChild]
    have := escalationCall_getChild_some cfg env headers tid (ReformatFSPIOPError err) c
    simpa [getChildEvents] using this
  | ok u =>
    simp [getChildEvents, isGetChild, List.filter_append]
    have := escalationCall_getChild_some cfg env headers tid (ReformatFSPIOPError err) c
    simpa [getChildEvents] using this

theorem fpaCatch_escalHeaders (cfg : Config) (env : Env) (headers : Headers) (tid : String)
    (err : ErrVal) (cs : Option (List String)) :
    escalHeaders (fpaCatch cfg env headers tid err cs).2 = [reversedHeaders headers] := by
  simp only [fpaCatch]
  cases h : (escalationCall cfg env headers tid (ReformatFSPIOPError err) cs).1 with
  | error e2 =>
    dsimp only
    rw [escalHeaders_cons_escalCall, escalationCall_escalHeaders]
  | ok u =>
    cases cs with
    | none =>
      dsimp only
      rw [escalHeaders_cons_escalCall, escalationCall_escalHeaders]
    | some c =>
      dsimp only
      rw [escalHeaders_cons_escalCall, escalHeaders_append, escalationCall_escalHeaders,
        escalHeaders_cons_finishErr]
      rfl

theorem fpaCatch_escalSpanArgs (cfg : Config) (env : Env) (headers : Headers) (tid : String)
    (err : ErrVal) (cs : Option (List String)) :
    escalSpanArgs (fpaCatch cfg env headers tid err cs).2 = [cs] := by
  simp only [fpaCatch]
  cases h : (escalationCall cfg env headers tid (ReformatFSPIOPError err) cs).1 with
  | error e2 =>
    dsimp only
    rw [escalSpanArgs_cons_escalCall, escalationCall_escalSpanArgs]
  | ok u =>
    cases cs with
    | none =>
      dsimp only
      rw [escalSpanArgs_cons_escalCall, escalationCall_escalSpanArgs]
    | some c =>
      dsimp only
      rw [escalSpanArgs_cons_escalCall, escalSpanArgs_append, escalationCall_escalSpanArgs,
        escalSpanArgs_cons_finishErr]
      rfl

theorem fpaCatch_err_trace (cfg : Config) (env : Env) (headers : Headers) (tid : String)
    (err : ErrVal) (c : List String)
    (h : (escalationCall cfg env headers tid (ReformatFSPIOPError err) (some c)).1 =
      Except.ok ()) :
    ∃ pre, (fpaCatch cfg env headers tid err (some c)).2 =
      pre ++ [Event.finishErr (ReformatFSPIOPError err) c] := by
  simp only [fpaCatch]
  rw [h]
  exact ⟨Event.escalCall PUT_ERROR_template (reversedHeaders headers) tid
    (Payload.apiError (toApiErrorObject (ReformatFSPIOPError err)
      cfg.ERROR_HANDLING.includeCauseExtension cfg.ERROR_HANDLING.truncateExtensions))
    (some c) ::
      (escalationCall cfg env headers tid (ReformatFSPIOPError err) (some c)).2, by simp⟩

/-! ## Characterization of the Forwarder's body -/

theorem fpa_eq_none (cfg : Config) (env : Env) (path : String) (headers : Headers)
    (tid : String) (payload : Payload) :
    forwardPostAuthorization cfg env path headers tid payload none =
      fpaWithChild cfg env path headers tid payload none := rfl

theorem fpa_eq_some (cfg : Config) (env : Env) (path : String) (headers : Headers)
    (tid : String) (payload : Payload) (s : SpanInput) (h : s.hasGetChild = true) :
    forwardPostAuthorization cfg env path headers tid payload (some s) =
      ((fpaWithChild cfg env path headers tid payload
          (some (s.path ++ ["forwardPostAuthorization"]))).1,
        Event.getChild s.path "forwardPostAuthorization" ::
          (fpaWithChild cfg env path headers tid payload
            (some (s.path ++ ["forwardPostAuthorization"]))).2) := by
  simp [forwardPostAuthorization, h]

theorem fpaWithChild_try_ok (cfg : Config) (env : Env) (path : String) (headers : Headers)
    (tid : String) (payload : Payload) (cs : Option (List String))
    (h : fpaTryResult cfg env path headers tid payload cs = Except.ok ()) :
    (fpaWithChild cfg env path headers tid payload cs).1 = Except.ok () := by
  rw [fpaTryResult] at h
  simp only [fpaWithChild]
  cases hE : env.getEndpoint cfg.ENDPOINT_SERVICE_URL headers.fspiopDestination
      EndpointType.THIRDPARTY_TRANSACTIONS_AUTHORIZATIONS_POST with
  | error e => rw [hE] at h; simp at h
  | ok endpoint =>
    rw [hE] at h
    simp only [] at h
    cases cs <;> simp [fpaAfterLookup, fpaAfterSend, h]

theorem fpaWithChild_try_err (cfg : Config) (env : Env) (path : String) (headers : Headers)
    (tid : String) (payload : Payload) (cs : Option (List String)) (e : ErrVal)
    (h : fpaTryResult cfg env path headers tid payload cs = Except.error e) :
    (fpaWithChild cfg env path headers tid payload cs).1 =
      (fpaCatch cfg env headers tid e cs).1 := by
  rw [fpaTryResult] at h
  simp only [fpaWithChild]
  cases hE : env.getEndpoint cfg.ENDPOINT_SERVICE_URL headers.fspiopDestination
      EndpointType.THIRDPARTY_TRANSACTIONS_AUTHORIZATIONS_POST with
  | error e' =>
    rw [hE] at h
    simp only [Except.error.injEq] at h
    subst h
    simp [fpaAfterLookup]
  | ok endpoint =>
    rw [hE] at h
    simp only [] at h
    simp [fpaAfterLookup, fpaAfterSend, h]

theorem fpaWithChild_escalCalls_ok (cfg : Config) (env : Env) (path : String)
    (headers : Headers) (tid : String) (payload : Payload) (cs : Option (List String))
    (h : fpaTryResult cfg env path headers tid payload cs = Except.ok ()) :
    escalCalls (fpaWithChild cfg env path headers tid payload cs).2 = [] := by
  rw [fpaTryResult] at h
  simp only [fpaWithChild]
  cases hE : env.getEndpoint cfg.ENDPOINT_SERVICE_URL headers.fspiopDestination
      EndpointType.THIRDPARTY_TRANSACTIONS_AUTHORIZATIONS_POST with
  | error e => rw [hE] at h; simp at h
  | ok endpoint =>
    rw [hE] at h
    simp only [] at h
    cases cs <;>
      simp [fpaAfterLookup, fpaAfterSend, h, escalCalls_cons_lookup, escalCalls_cons_send,
        escalCalls_cons_finish, escalCalls, isEscalCall]

theorem fpaWithChild_escalCalls_err (cfg : Config) (env : Env) (path : String)
    (headers : Headers) (tid : String) (payload : Payload) (cs : Option (List String))
    (e : ErrVal)
    (h : fpaTryResult cfg env path headers tid payload cs = Except.error e) :
    escalCalls (fpaWithChild cfg env path headers tid payload cs).2 =
      escalCalls (fpaCatch cfg env headers tid e cs).2 := by
  rw [fpaTryResult] at h
  simp only [fpaWithChild]
  cases hE : env.getEndpoint cfg.ENDPOINT_SERVICE_URL headers.fspiopDestination
      EndpointType.THIRDPARTY_TRANSACTIONS_AUTHORIZATIONS_POST with
  | error e' =>
    rw [hE] at h
    simp only [Except.error.injEq] at h
    subst h
    dsimp only [fpaAfterLookup]
    rw [escalCalls_cons_lookup]
  | ok endpoint =>
    rw [hE] at h
    simp only [] at h
    dsimp only [fpaAfterLookup]
    rw [h]
    dsimp only [fpaAfterSend]
    rw [escalCalls_cons_lookup, escalCalls_cons_send]

theorem fpaWithChild_finishCount_ok_some (cfg : Config) (env : Env) (path : String)
    (headers : Headers) (tid : String) (payload : Payload) (c : List String)
    (sp : List String)
    (h : fpaTryResult cfg env path headers tid payload (some c) = Except.ok ()) :
    finishCount sp (fpaWithChild cfg env path headers tid payload (some c)).2 =
      if c = sp then 1 else 0 := by
  rw [fpaTryResult] at h
  simp only [fpaWithChild]
  cases hE : env.getEndpoint cfg.ENDPOINT_SERVICE_URL headers.fspiopDestination
      EndpointType.THIRDPARTY_TRANSACTIONS_AUTHORIZATIONS_POST with
  | error e => rw [hE] at h; simp at h
  | ok endpoint =>
    rw [hE] at h
    simp only [] at h
    simp [fpaAfterLookup, fpaAfterSend, h, finishCount]

theorem fpaWithChild_finishCount_err (cfg : Config) (env : Env) (path : String)
    (headers : Headers) (tid : String) (payload : Payload) (cs : Option (List String))
    (e : ErrVal) (sp : List String)
    (h : fpaTryResult cfg env path headers tid payload cs = Except.error e) :
    finishCount sp (fpaWithChild cfg env path headers tid payload cs).2 =
      finishCount sp (fpaCatch cfg env headers tid e cs).2 := by
  rw [fpaTryResult] at h
  simp only [fpaWithChild]
  cases hE : env.getEndpoint cfg.ENDPOINT_SERVICE_URL headers.fspiopDestination
      EndpointType.THIRDPARTY_TRANSACTIONS_AUTHORIZATIONS_POST with
  | error e' =>
    rw [hE] at h
    simp only [Except.error.injEq] at h
    subst h
    dsimp only [fpaAfterLookup]
    rw [finishCount_cons_lookup]
  | ok endpoint =>
    rw [hE] at h
    simp only [] at h
    dsimp only [fpaAfterLookup]
    rw [h]
    dsimp only [fpaAfterSend]
    rw [finishCount_cons_lookup, finishCount_cons_send]

theorem fpaWithChild_getChild_err (cfg : Config) (env : Env) (path : String)
    (headers : Headers) (tid : String) (payload : Payload) (cs : Option (List String))
    (e : ErrVal)
    (h : fpaTryResult cfg env path headers tid payload cs = Except.error e) :
    getChildEvents (fpaWithChild cfg env path headers tid payload cs).2 =
      getChildEvents (fpaCatch cfg env headers tid e cs).2 := by
  rw [fpaTryResult] at h
  simp only [fpaWithChild]
  cases hE : env.getEndpoint cfg.ENDPOINT_SERVICE_URL headers.fspiopDestination
      EndpointType.THIRDPARTY_TRANSACTIONS_AUTHORIZATIONS_POST with
  | error e' =>
    rw [hE] at h
    simp only [Except.error.injEq] at h
    subst h
    dsimp only [fpaAfterLookup]
    rw [getChildEvents_cons_lookup]
  | ok endpoint =>
    rw [hE] at h
    simp only [] at h
    dsimp only [fpaAfterLookup]
    rw [h]
    dsimp only [fpaAfterSend]
    rw [getChildEvents_cons_lookup, getChildEvents_cons_send]

theorem fpaWithChild_escalHeaders_err (cfg : Config) (env : Env) (path : String)
    (headers : Headers) (tid : String) (payload : Payload) (cs : Option (List String))
    (e : ErrVal)
    (h : fpaTryResult cfg env path headers tid payload cs = Except.error e) :
    escalHeaders (fpaWithChild cfg env path headers tid payload cs).2 =
      escalHeaders (fpaCatch cfg env headers tid e cs).2 := by
  rw [fpaTryResult] at h
  simp only [fpaWithChild]
  cases hE : env.getEndpoint cfg.ENDPOINT_SERVICE_URL headers.fspiopDestination
      EndpointType.THIRDPARTY_TRANSACTIONS_AUTHORIZATIONS_POST with
  | error e' =>
    rw [hE] at h
    simp only [Except.error.injEq] at h
    subst h
    dsimp only [fpaAfterLookup]
    rfl
  | ok endpoint =>
    rw [hE] at h
    simp only [] at h
    dsimp only [fpaAfterLookup]
    rw [h]
    dsimp only [fpaAfterSend]
    rfl

theorem fpaWithChild_escalSpanArgs_err (cfg : Config) (env : Env) (path : String)
    (headers : Headers) (tid : String) (payload : Payload) (cs : Option (List String))
    (e : ErrVal)
    (h : fpaTryResult cfg env path headers tid payload cs = Except.error e) :
    escalSpanArgs (fpaWithChild cfg env path headers tid payload cs).2 =
      escalSpanArgs (fpaCatch cfg env headers tid e cs).2 := by
  rw [fpaTryResult] at h
  simp only [fpaWithChild]
  cases hE : env.getEndpoint cfg.ENDPOINT_SERVICE_URL headers.fspiopDestination
      EndpointType.THIRDPARTY_TRANSACTIONS_AUTHORIZATIONS_POST with
  | error e' =>
    rw [hE] at h
    simp only [Except.error.injEq] at h
    subst h
    dsimp only [fpaAfterLookup]
    rfl
  | ok endpoint =>
    rw [hE] at h
    simp only [] at h
    dsimp only [fpaAfterLookup]
    rw [h]
    dsimp only [fpaAfterSend]
    rfl

theorem fpaWithChild_sendUrls_head (cfg : Config) (env : Env) (path : String)
    (headers : Headers) (tid : String) (payload : Payload) (cs : Option (List String))
    (endpoint : String)
    (h : env.getEndpoint cfg.ENDPOINT_SERVICE_URL headers.fspiopDestination
      EndpointType.THIRDPARTY_TRANSACTIONS_AUTHORIZATIONS_POST = Except.ok endpoint) :
    (sendUrls (fpaWithChild cfg env path headers tid payload cs).2).head? =
      some (mustacheRenderID (endpoint ++ path) tid) := by
  simp only [fpaWithChild, h]
  dsimp only [fpaAfterLookup]
  rw [sendUrls_cons_lookup, sendUrls_cons_send]
  rfl

theorem fpaWithChild_err_trace_some (cfg : Config) (env : Env) (path : String)
    (headers : Headers) (tid : String) (payload : Payload) (c : List String) (e : ErrVal)
    (h : fpaTryResult cfg env path headers tid payload (some c) = Except.error e)
    (hesc : (escalationCall cfg env headers tid (ReformatFSPIOPError e) (some c)).1 =
      Except.ok ()) :
    ∃ pre, (fpaWithChild cfg env path headers tid payload (some c)).2 =
      pre ++ [Event.finishErr (ReformatFSPIOPError e) c] := by
  rw [fpaTryResult] at h
  simp only [fpaWithChild]
  obtain ⟨preC, hpreC⟩ := fpaCatch_err_trace cfg env headers tid e c hesc
  cases hE : env.getEndpoint cfg.ENDPOINT_SERVICE_URL headers.fspiopDestination
      EndpointType.THIRDPARTY_TRANSACTIONS_AUTHORIZATIONS_POST with
  | error e' =>
    rw [hE] at h
    simp only [Except.error.injEq] at h
    subst h
    dsimp only [fpaAfterLookup]
    refine ⟨Event.lookup cfg.ENDPOINT_SERVICE_URL headers.fspiopDestination
      EndpointType.THIRDPARTY_TRANSACTIONS_AUTHORIZATIONS_POST :: preC, ?_⟩
    simp [hpreC]
  | ok endpoint =>
    rw [hE] at h
    simp only [] at h
    dsimp only [fpaAfterLookup]
    rw [h]
    dsimp only [fpaAfterSend]
    refine ⟨Event.lookup cfg.ENDPOINT_SERVICE_URL headers.fspiopDestination
        EndpointType.THIRDPARTY_TRANSACTIONS_AUTHORIZATIONS_POST ::
      Event.send (mustacheRenderID (endpoint ++ path) tid) headers headers.fspiopSource
        headers.fspiopDestination RestMethod.POST payload (some c) :: preC, ?_⟩
    simp [hpreC]

theorem append_singleton_ne (l : List String) (x : String) : l ++ [x] ≠ l := by
  intro h
  have := congrArg List.length h
  simp at this

/-- The Forwarder's catch block never returns normally: it re-raises either the
original normalized failure or the escalation failure. -/
theorem fpaCatch_not_ok (cfg : Config) (env : Env) (headers : Headers) (tid : String)
    (err : ErrVal) (cs : Option (List String)) :
    ∃ er, (fpaCatch cfg env headers tid err cs).1 = Except.error er := by
  cases h : (escalationCall cfg env headers tid (ReformatFSPIOPError err) cs).1 with
  | error e2 => exact ⟨e2, fpaCatch_result_err cfg env headers tid err cs e2 h⟩
  | ok u => exact ⟨ReformatFSPIOPError err, fpaCatch_result_ok cfg env headers tid err cs h⟩

theorem fpaWithChild_finishCount_ok_none (cfg : Config) (env : Env) (path : String)
    (headers : Headers) (tid : String) (payload : Payload) (sp : List String)
    (h : fpaTryResult cfg env path headers tid payload none = Except.ok ()) :
    finishCount sp (fpaWithChild cfg env path headers tid payload none).2 = 0 := by
  rw [fpaTryResult] at h
  simp only [fpaWithChild]
  cases hE : env.getEndpoint cfg.ENDPOINT_SERVICE_URL headers.fspiopDestination
      EndpointType.THIRDPARTY_TRANSACTIONS_AUTHORIZATIONS_POST with
  | error e => rw [hE] at h; simp at h
  | ok endpoint =>
    rw [hE] at h
    simp only [] at h
    simp [fpaAfterLookup, fpaAfterSend, h, finishCount]

/-! ## Claim theorems -/

/-- C9: error normalization is idempotent — normalizing an already-normalized
error returns it unchanged, so no failure is double-wrapped regardless of
which catch site performs the normalization. -/
theorem reformat_idempotent (e : ErrVal) :
    ReformatFSPIOPError (ReformatFSPIOPError e) = ReformatFSPIOPError e := by
  cases e <;> rfl

/-- C7: when the optional span argument is present but lacks the `getChild`
capability, both operations raise the raw `TypeError` synchronously before the
try block: the trace is empty (no endpoint resolution, no send, no escalation)
and the raised value is the raw failure, not a normalized StandardError. -/
theorem malformed_span_raises_synchronously (cfg : Config) (env : Env) (path : String)
    (headers : Headers) (transactionRequestId : String) (payload : Payload) (p : List String) :
    forwardPostAuthorization cfg env path headers transactionRequestId payload
        (some ⟨p, false⟩) =
      (Except.error (ErrVal.raw "span.getChild is not a function"), []) ∧
    forwardPostAuthorizationError cfg env path headers transactionRequestId payload
        (some ⟨p, false⟩) =
      (Except.error (ErrVal.raw "span.getChild is not a function"), []) ∧
    hasNetworkEvent
      (forwardPostAuthorization cfg env path headers transactionRequestId payload
        (some ⟨p, false⟩)).2 = false ∧
    (∀ c m, ErrVal.raw "span.getChild is not a function" ≠ ErrVal.fspiop c m) := by
  refine ⟨rfl, rfl, rfl, ?_⟩
  intro c m h
  cases h

/-- C6: for every failure inside the Error Escalator, the failure is
normalized to a StandardError and raised to the caller, the escalator's child
span (when one exists) is finished with error status as the last event, and no
escalation call of any kind occurs in the escalator's run, bounding the relay
to at most two hops. -/
theorem escalator_failure_no_further_escalation (cfg : Config) (env : Env) (path : String)
    (headers : Headers) (transactionRequestId : String) (payload : Payload)
    (span : Option SpanInput) (hs : spanOk span) :
    escalCalls (forwardPostAuthorizationError cfg env path headers transactionRequestId
      payload span).2 = [] ∧
    ∀ e, fpaeTryResult cfg env path headers transactionRequestId payload
        (childSpanOf span "forwardPostAuthorizationError") = Except.error e →
      (forwardPostAuthorizationError cfg env path headers transactionRequestId payload
        span).1 = Except.error (ReformatFSPIOPError e) ∧
      ∀ s, span = some s →
        ∃ pre, (forwardPostAuthorizationError cfg env path headers transactionRequestId
          payload span).2 =
          pre ++ [Event.finishErr (ReformatFSPIOPError e)
            (s.path ++ ["forwardPostAuthorizationError"])] := by
  cases span with
  | none =>
    refine ⟨fpaeWithChild_escalCalls cfg env path headers transactionRequestId payload none, ?_⟩
    intro e he
    rw [childSpanOf] at he
    refine ⟨fpaeWithChild_err cfg env path headers transactionRequestId payload none e he, ?_⟩
    intro s hcontra
    cases hcontra
  | some s =>
    have hg : s.hasGetChild = true := hs
    have hEq := fpae_eq_some cfg env path headers transactionRequestId payload s hg
    have h1 : (forwardPostAuthorizationError cfg env path headers transactionRequestId
        payload (some s)).1 =
        (fpaeWithChild cfg env path headers transactionRequestId payload
          (some (s.path ++ ["forwardPostAuthorizationError"]))).1 := by rw [hEq]
    have h2 : (forwardPostAuthorizationError cfg env path headers transactionRequestId
        payload (some s)).2 =
        Event.getChild s.path "forwardPostAuthorizationError" ::
          (fpaeWithChild cfg env path headers transactionRequestId payload
            (some (s.path ++ ["forwardPostAuthorizationError"]))).2 := by rw [hEq]
    constructor
    · rw [h2, escalCalls_cons_getChild]
      exact fpaeWithChild_escalCalls cfg env path headers transactionRequestId payload _
    · intro e he
      rw [childSpanOf] at he
      refine ⟨?_, ?_⟩
      · rw [h1]
        exact fpaeWithChild_err cfg env path headers transactionRequestId payload _ e he
      · intro s' hs'
        cases hs'
        obtain ⟨pre, hpre⟩ := fpaeWithChild_err_trace cfg env path headers
          transactionRequestId payload (s.path ++ ["forwardPostAuthorizationError"]) e he
        refine ⟨Event.getChild s.path "forwardPostAuthorizationError" :: pre, ?_⟩
        rw [h2, hpre]
        rfl

/-- C3: the Error Escalator is invoked exactly once per failure caught in the
Forwarder — with the error-callback path template, the reversed headers, the
same transactionRequestId, the failure normalized and serialized under the two
ERROR_HANDLING flags, and the Forwarder's own child span — and zero times on
the success path. -/
theorem forwarder_escalates_exactly_once (cfg : Config) (env : Env) (path : String)
    (headers : Headers) (transactionRequestId : String) (payload : Payload)
    (span : Option SpanInput) (hs : spanOk span) :
    (fpaTryResult cfg env path headers transactionRequestId payload
        (childSpanOf span "forwardPostAuthorization") = Except.ok () →
      escalCalls (forwardPostAuthorization cfg env path headers transactionRequestId
        payload span).2 = []) ∧
    ∀ e, fpaTryResult cfg env path headers transactionRequestId payload
        (childSpanOf span "forwardPostAuthorization") = Except.error e →
      escalCalls (forwardPostAuthorization cfg env path headers transactionRequestId
        payload span).2 =
        [Event.escalCall PUT_ERROR_template (reversedHeaders headers) transactionRequestId
          (Payload.apiError (toApiErrorObject (ReformatFSPIOPError e)
            cfg.ERROR_HANDLING.includeCauseExtension cfg.ERROR_HANDLING.truncateExtensions))
          (childSpanOf span "forwardPostAuthorization")] := by
  cases span with
  | none =>
    rw [childSpanOf]
    constructor
    · intro h
      exact fpaWithChild_escalCalls_ok cfg env path headers transactionRequestId payload
        none h
    · intro e he
      rw [fpa_eq_none, fpaWithChild_escalCalls_err cfg env path headers transactionRequestId
        payload none e he]
      exact fpaCatch_escalCalls cfg env headers transactionRequestId e none
  | some s =>
    have hg : s.hasGetChild = true := hs
    have hEq := fpa_eq_some cfg env path headers transactionRequestId payload s hg
    have h2 : (forwardPostAuthorization cfg env path headers transactionRequestId
        payload (some s)).2 =
        Event.getChild s.path "forwardPostAuthorization" ::
          (fpaWithChild cfg env path headers transactionRequestId payload
            (some (s.path ++ ["forwardPostAuthorization"]))).2 := by rw [hEq]
    rw [childSpanOf]
    constructor
    · intro h
      rw [h2, escalCalls_cons_getChild]
      exact fpaWithChild_escalCalls_ok cfg env path headers transactionRequestId payload
        _ h
    · intro e he
      rw [h2, escalCalls_cons_getChild,
        fpaWithChild_escalCalls_err cfg env path headers transactionRequestId payload _ e he]
      exact fpaCatch_escalCalls cfg env headers transactionRequestId e _

/-- C1 (amended): after a forwarding failure, if the escalation call returns
normally the Forwarder finishes its child span with error status (when a span
is present) and re-raises the original normalized failure; if the escalation
call itself fails, that escalation failure propagates to the Forwarder's
caller instead — the original normalized failure is not re-raised and the
Forwarder's child span is not finished. -/
theorem forwarder_reraise_behavior (cfg : Config) (env : Env) (path : String)
    (headers : Headers) (transactionRequestId : String) (payload : Payload)
    (span : Option SpanInput) (hs : spanOk span) (e : ErrVal)
    (hf : fpaTryResult cfg env path headers transactionRequestId payload
      (childSpanOf span "forwardPostAuthorization") = Except.error e) :
    ((escalationCall cfg env headers transactionRequestId (ReformatFSPIOPError e)
        (childSpanOf span "forwardPostAuthorization")).1 = Except.ok () →
      (forwardPostAuthorization cfg env path headers transactionRequestId payload span).1 =
        Except.error (ReformatFSPIOPError e) ∧
      ∀ s, span = some s →
        ∃ pre, (forwardPostAuthorization cfg env path headers transactionRequestId
          payload span).2 =
          pre ++ [Event.finishErr (ReformatFSPIOPError e)
            (s.path ++ ["forwardPostAuthorization"])]) ∧
    ∀ e2, (escalationCall cfg env headers transactionRequestId (ReformatFSPIOPError e)
        (childSpanOf span "forwardPostAuthorization")).1 = Except.error e2 →
      (forwardPostAuthorization cfg env path headers transactionRequestId payload span).1 =
        Except.error e2 ∧
      ∀ s, span = some s →
        finishCount (s.path ++ ["forwardPostAuthorization"])
          (forwardPostAuthorization cfg env path headers transactionRequestId
            payload span).2 = 0 := by
  cases span with
  | none =>
    rw [childSpanOf] at hf ⊢
    constructor
    · intro hesc
      refine ⟨?_, ?_⟩
      · rw [fpa_eq_none, fpaWithChild_try_err cfg env path headers transactionRequestId
          payload none e hf]
        exact fpaCatch_result_ok cfg env headers transactionRequestId e none hesc
      · intro s hcontra
        cases hcontra
    · intro e2 hesc
      refine ⟨?_, ?_⟩
      · rw [fpa_eq_none, fpaWithChild_try_err cfg env path headers transactionRequestId
          payload none e hf]
        exact fpaCatch_result_err cfg env headers transactionRequestId e none e2 hesc
      · intro s hcontra
        cases hcontra
  | some s =>
    have hg : s.hasGetChild = true := hs
    have hEq := fpa_eq_some cfg env path headers transactionRequestId payload s hg
    have h1 : (forwardPostAuthorization cfg env path headers transactionRequestId
        payload (some s)).1 =
        (fpaWithChild cfg env path headers transactionRequestId payload
          (some (s.path ++ ["forwardPostAuthorization"]))).1 := by rw [hEq]
    have h2 : (forwardPostAuthorization cfg env path headers transactionRequestId
        payload (some s)).2 =
        Event.getChild s.path "forwardPostAuthorization" ::
          (fpaWithChild cfg env path headers transactionRequestId payload
            (some (s.path ++ ["forwardPostAuthorization"]))).2 := by rw [hEq]
    rw [childSpanOf] at hf ⊢
    constructor
    · intro hesc
      refine ⟨?_, ?_⟩
      · rw [h1, fpaWithChild_try_err cfg env path headers transactionRequestId payload _ e hf]
        exact fpaCatch_result_ok cfg env headers transactionRequestId e _ hesc
      · intro s' hs'
        cases hs'
        obtain ⟨pre, hpre⟩ := fpaWithChild_err_trace_some cfg env path headers
          transactionRequestId payload (s.path ++ ["forwardPostAuthorization"]) e hf hesc
        refine ⟨Event.getChild s.path "forwardPostAuthorization" :: pre, ?_⟩
        rw [h2, hpre]
        rfl
    · intro e2 hesc
      refine ⟨?_, ?_⟩
      · rw [h1, fpaWithChild_try_err cfg env path headers transactionRequestId payload _ e hf]
        exact fpaCatch_result_err cfg env headers transactionRequestId e _ e2 hesc
      · intro s' hs'
        cases hs'
        rw [h2, finishCount_cons_getChild,
          fpaWithChild_finishCount_err cfg env path headers transactionRequestId payload
            _ e _ hf,
          fpaCatch_finishCount_some_err cfg env headers transactionRequestId e _ _ e2 hesc,
          if_neg (append_singleton_ne (s.path ++ ["forwardPostAuthorization"])
            "forwardPostAuthorizationError")]

/-- C2 (amended): no span path is ever finished twice in any run of either
operation (the `isFinished` guard and the ownership discipline prevent it);
the child span is finished exactly once on the success path and on
forwarding-failure paths whose escalation call returns normally; but when the
escalation call itself fails, the Forwarder's child span is left unfinished
(the escalator still finishes its own child exactly once). -/
theorem span_finish_discipline (cfg : Config) (env : Env) (path : String)
    (headers : Headers) (transactionRequestId : String) (payload : Payload)
    (span : Option SpanInput) (hs : spanOk span) :
    (∀ sp, finishCount sp (forwardPostAuthorization cfg env path headers
      transactionRequestId payload span).2 ≤ 1) ∧
    (∀ sp, finishCount sp (forwardPostAuthorizationError cfg env path headers
      transactionRequestId payload span).2 ≤ 1) ∧
    (∀ s, span = some s →
      ((forwardPostAuthorization cfg env path headers transactionRequestId payload
          span).1 = Except.ok () →
        finishCount (s.path ++ ["forwardPostAuthorization"])
          (forwardPostAuthorization cfg env path headers transactionRequestId payload
            span).2 = 1) ∧
      finishCount (s.path ++ ["forwardPostAuthorizationError"])
        (forwardPostAuthorizationError cfg env path headers transactionRequestId payload
          span).2 = 1 ∧
      (∀ e, fpaTryResult cfg env path headers transactionRequestId payload
          (some (s.path ++ ["forwardPostAuthorization"])) = Except.error e →
        ((escalationCall cfg env headers transactionRequestId (ReformatFSPIOPError e)
            (some (s.path ++ ["forwardPostAuthorization"]))).1 = Except.ok () →
          finishCount (s.path ++ ["forwardPostAuthorization"])
            (forwardPostAuthorization cfg env path headers transactionRequestId payload
              span).2 = 1) ∧
        ∀ e2, (escalationCall cfg env headers transactionRequestId (ReformatFSPIOPError e)
            (some (s.path ++ ["forwardPostAuthorization"]))).1 = Except.error e2 →
          finishCount (s.path ++ ["forwardPostAuthorization"])
            (forwardPostAuthorization cfg env path headers transactionRequestId payload
              span).2 = 0)) := by
  cases span with
  | none =>
    refine ⟨?_, ?_, ?_⟩
    · intro sp
      cases ht : fpaTryResult cfg env path headers transactionRequestId payload none with
      | ok u =>
        cases u
        rw [fpa_eq_none, fpaWithChild_finishCount_ok_none cfg env path headers
          transactionRequestId payload sp ht]
        omega
      | error e =>
        rw [fpa_eq_none,
          fpaWithChild_finishCount_err cfg env path headers transactionRequestId payload
            none e sp ht,
          fpaCatch_finishCount_none]
        omega
    · intro sp
      rw [fpae_eq_none, fpaeWithChild_finishCount_none]
      omega
    · intro s hcontra
      cases hcontra
  | some s =>
    have hg : s.hasGetChild = true := hs
    have hEqA := fpa_eq_some cfg env path headers transactionRequestId payload s hg
    have h1 : (forwardPostAuthorization cfg env path headers transactionRequestId
        payload (some s)).1 =
        (fpaWithChild cfg env path headers transactionRequestId payload
          (some (s.path ++ ["forwardPostAuthorization"]))).1 := by rw [hEqA]
    have h2 : (forwardPostAuthorization cfg env path headers transactionRequestId
        payload (some s)).2 =
        Event.getChild s.path "forwardPostAuthorization" ::
          (fpaWithChild cfg env path headers transactionRequestId payload
            (some (s.path ++ ["forwardPostAuthorization"]))).2 := by rw [hEqA]
    have hEqE := fpae_eq_some cfg env path headers transactionRequestId payload s hg
    have h4 : (forwardPostAuthorizationError cfg env path headers transactionRequestId
        payload (some s)).2 =
        Event.getChild s.path "forwardPostAuthorizationError" ::
          (fpaeWithChild cfg env path headers transactionRequestId payload
            (some (s.path ++ ["forwardPostAuthorizationError"]))).2 := by rw [hEqE]
    refine ⟨?_, ?_, ?_⟩
    · intro sp
      rw [h2, finishCount_cons_getChild]
      cases ht : fpaTryResult cfg env path headers transactionRequestId payload
          (some (s.path ++ ["forwardPostAuthorization"])) with
      | ok u =>
        cases u
        rw [fpaWithChild_finishCount_ok_some cfg env path headers transactionRequestId
          payload _ sp ht]
        split <;> omega
      | error e =>
        rw [fpaWithChild_finishCount_err cfg env path headers transactionRequestId payload
          _ e sp ht]
        cases hesc : (escalationCall cfg env headers transactionRequestId
            (ReformatFSPIOPError e) (some (s.path ++ ["forwardPostAuthorization"]))).1 with
        | ok u =>
          cases u
          rw [fpaCatch_finishCount_some_ok cfg env headers transactionRequestId e _ sp hesc]
          by_cases hx : (s.path ++ ["forwardPostAuthorization"]) ++
              ["forwardPostAuthorizationError"] = sp
          · have hy : ¬ s.path ++ ["forwardPostAuthorization"] = sp := fun hy =>
              append_singleton_ne (s.path ++ ["forwardPostAuthorization"])
                "forwardPostAuthorizationError" (hx.trans hy.symm)
            rw [if_pos hx, if_neg hy]
          · rw [if_neg hx]
            split <;> omega
        | error e2 =>
          rw [fpaCatch_finishCount_some_err cfg env headers transactionRequestId e _ sp
            e2 hesc]
          split <;> omega
    · intro sp
      rw [h4, finishCount_cons_getChild, fpaeWithChild_finishCount]
      split <;> omega
    · intro s' hs'
      cases hs'
      refine ⟨?_, ?_, ?_⟩
      · intro hok
        rw [h1] at hok
        rw [h2, finishCount_cons_getChild]
        cases ht : fpaTryResult cfg env path headers transactionRequestId payload
            (some (s.path ++ ["forwardPostAuthorization"])) with
        | ok u =>
          cases u
          rw [fpaWithChild_finishCount_ok_some cfg env path headers transactionRequestId
            payload _ _ ht, if_pos rfl]
        | error e =>
          obtain ⟨er, her⟩ := fpaCatch_not_ok cfg env headers transactionRequestId e
            (some (s.path ++ ["forwardPostAuthorization"]))
          rw [fpaWithChild_try_err cfg env path headers transactionRequestId payload
            _ e ht, her] at hok
          cases hok
      · rw [h4, finishCount_cons_getChild, fpaeWithChild_finishCount, if_pos rfl]
      · intro e he
        constructor
        · intro hesc
          rw [h2, finishCount_cons_getChild,
            fpaWithChild_finishCount_err cfg env path headers transactionRequestId payload
              _ e _ he,
            fpaCatch_finishCount_some_ok cfg env headers transactionRequestId e _ _ hesc,
            if_neg (append_singleton_ne (s.path ++ ["forwardPostAuthorization"])
              "forwardPostAuthorizationError"),
            if_pos rfl]
        · intro e2 hesc
          rw [h2, finishCount_cons_getChild,
            fpaWithChild_finishCount_err cfg env path headers transactionRequestId payload
              _ e _ he,
            fpaCatch_finishCount_some_err cfg env headers transactionRequestId e _ _ e2 hesc,
            if_neg (append_singleton_ne (s.path ++ ["forwardPostAuthorization"])
              "forwardPostAuthorizationError")]

/-- C5: the headers passed to the Error Escalator equal the original headers
with exactly two fields changed — `fspiop-source` set to the switch identifier
and `fspiop-destination` set to the original request's source participant —
and every other header field carried over unchanged. -/
theorem escalation_headers_frame (cfg : Config) (env : Env) (path : String)
    (headers : Headers) (transactionRequestId : String) (payload : Payload)
    (span : Option SpanInput) (hs : spanOk span) (e : ErrVal)
    (hf : fpaTryResult cfg env path headers transactionRequestId payload
      (childSpanOf span "forwardPostAuthorization") = Except.error e) :
    escalHeaders (forwardPostAuthorization cfg env path headers transactionRequestId
      payload span).2 =
      [{ fspiopSource := FSPIOP_SWITCH_value, fspiopDestination := headers.fspiopSource,
         rest := headers.rest }] := by
  cases span with
  | none =>
    rw [childSpanOf] at hf
    rw [fpa_eq_none, fpaWithChild_escalHeaders_err cfg env path headers transactionRequestId
      payload none e hf, fpaCatch_escalHeaders]
    rfl
  | some s =>
    have hg : s.hasGetChild = true := hs
    have hEq := fpa_eq_some cfg env path headers transactionRequestId payload s hg
    have h2 : (forwardPostAuthorization cfg env path headers transactionRequestId
        payload (some s)).2 =
        Event.getChild s.path "forwardPostAuthorization" ::
          (fpaWithChild cfg env path headers transactionRequestId payload
            (some (s.path ++ ["forwardPostAuthorization"]))).2 := by rw [hEq]
    rw [childSpanOf] at hf
    rw [h2, escalHeaders_cons_getChild,
      fpaWithChild_escalHeaders_err cfg env path headers transactionRequestId payload
        _ e hf,
      fpaCatch_escalHeaders]
    rfl

/-- C4 (amended): the single escalation call carries headers whose
`fspiop-source` is the switch identifier — not the original destination
participant — and whose `fspiop-destination` is the original source
participant. -/
theorem escalation_headers_source_switch (cfg : Config) (env : Env) (path : String)
    (headers : Headers) (transactionRequestId : String) (payload : Payload)
    (span : Option SpanInput) (hs : spanOk span) (e : ErrVal)
    (hf : fpaTryResult cfg env path headers transactionRequestId payload
      (childSpanOf span "forwardPostAuthorization") = Except.error e) :
    ∀ h ∈ escalHeaders (forwardPostAuthorization cfg env path headers
      transactionRequestId payload span).2,
      h.fspiopSource = FSPIOP_SWITCH_value ∧ h.fspiopDestination = headers.fspiopSource := by
  intro h hmem
  cases span with
  | none =>
    rw [childSpanOf] at hf
    rw [fpa_eq_none, fpaWithChild_escalHeaders_err cfg env path headers transactionRequestId
      payload none e hf, fpaCatch_escalHeaders] at hmem
    simp only [List.mem_singleton] at hmem
    subst hmem
    exact ⟨rfl, rfl⟩
  | some s =>
    have hg : s.hasGetChild = true := hs
    have hEq := fpa_eq_some cfg env path headers transactionRequestId payload s hg
    have h2 : (forwardPostAuthorization cfg env path headers transactionRequestId
        payload (some s)).2 =
        Event.getChild s.path "forwardPostAuthorization" ::
          (fpaWithChild cfg env path headers transactionRequestId payload
            (some (s.path ++ ["forwardPostAuthorization"]))).2 := by rw [hEq]
    rw [childSpanOf] at hf
    rw [h2, escalHeaders_cons_getChild,
      fpaWithChild_escalHeaders_err cfg env path headers transactionRequestId payload
        _ e hf,
      fpaCatch_escalHeaders] at hmem
    simp only [List.mem_singleton] at hmem
    subst hmem
    exact ⟨rfl, rfl⟩

/-- C10: when a parent span is supplied and the Forwarder fails, the Forwarder
passes its own child span as the parent-span argument of the Error Escalator,
which derives its child from it: the run creates exactly the two child spans
`parent/forwardPostAuthorization` and
`parent/forwardPostAuthorization/forwardPostAuthorizationError`, so the
escalation hop's span is a grandchild of the inbound span, nested under the
forwarding hop's span. -/
theorem escalation_span_is_grandchild (cfg : Config) (env : Env) (path : String)
    (headers : Headers) (transactionRequestId : String) (payload : Payload)
    (p : List String) (e : ErrVal)
    (hf : fpaTryResult cfg env path headers transactionRequestId payload
      (some (p ++ ["forwardPostAuthorization"])) = Except.error e) :
    getChildEvents (forwardPostAuthorization cfg env path headers transactionRequestId
      payload (some ⟨p, true⟩)).2 =
      [Event.getChild p "forwardPostAuthorization",
        Event.getChild (p ++ ["forwardPostAuthorization"]) "forwardPostAuthorizationError"] ∧
    escalSpanArgs (forwardPostAuthorization cfg env path headers transactionRequestId
      payload (some ⟨p, true⟩)).2 = [some (p ++ ["forwardPostAuthorization"])] := by
  have hEq := fpa_eq_some cfg env path headers transactionRequestId payload ⟨p, true⟩ rfl
  have h2 : (forwardPostAuthorization cfg env path headers transactionRequestId
      payload (some ⟨p, true⟩)).2 =
      Event.getChild p "forwardPostAuthorization" ::
        (fpaWithChild cfg env path headers transactionRequestId payload
          (some (p ++ ["forwardPostAuthorization"]))).2 := by rw [hEq]
  constructor
  · rw [h2, getChildEvents_cons_getChild,
      fpaWithChild_getChild_err cfg env path headers transactionRequestId payload _ e hf,
      fpaCatch_getChild_some]
  · rw [h2, escalSpanArgs_cons_getChild,
      fpaWithChild_escalSpanArgs_err cfg env path headers transactionRequestId payload
        _ e hf,
      fpaCatch_escalSpanArgs]

/-- C8 (amended): for every successful endpoint resolution, the URL passed to
the outbound send is the Mustache rendering of the concatenation of the
resolved base URL and the path template with the view binding `ID` to the
transactionRequestId: each double-brace `ID` tag is replaced by the
HTML-escaped transactionRequestId (the identity for UUID-shaped ids), and a
single-brace placeholder is not substituted; on the repository's error-callback
template this coincides with literal substitution. -/
theorem url_mustache_rendering (cfg : Config) (env : Env) (path : String)
    (headers : Headers) (transactionRequestId : String) (payload : Payload)
    (span : Option SpanInput) (endpoint : String) (hs : spanOk span) :
    (env.getEndpoint cfg.ENDPOINT_SERVICE_URL headers.fspiopDestination
        EndpointType.THIRDPARTY_TRANSACTIONS_AUTHORIZATIONS_POST = Except.ok endpoint →
      (sendUrls (forwardPostAuthorization cfg env path headers transactionRequestId
        payload span).2).head? =
        some (mustacheRenderID (endpoint ++ path) transactionRequestId)) ∧
    (env.getEndpoint cfg.ENDPOINT_SERVICE_URL headers.fspiopDestination
        EndpointType.THIRDPARTY_CALLBACK_URL_TRANSACTION_REQUEST_AUTHORIZATIONS_PUT_ERROR =
        Except.ok endpoint →
      sendUrls (forwardPostAuthorizationError cfg env path headers transactionRequestId
        payload span).2 =
        [mustacheRenderID (endpoint ++ path) transactionRequestId]) ∧
    mustacheRenderID ("https://ex.org" ++ PUT_ERROR_template)
        "a5bbfd51-d9fc-4084-961a-c2c2221a31e0" =
      "https://ex.org/thirdpartyRequests/transactions/" ++
        "a5bbfd51-d9fc-4084-961a-c2c2221a31e0/authorizations/error" := by
  refine ⟨?_, ?_, by decide⟩
  · intro hE
    cases span with
    | none =>
      rw [fpa_eq_none]
      exact fpaWithChild_sendUrls_head cfg env path headers transactionRequestId payload
        none endpoint hE
    | some s =>
      have hg : s.hasGetChild = true := hs
      have hEq := fpa_eq_some cfg env path headers transactionRequestId payload s hg
      have h2 : (forwardPostAuthorization cfg env path headers transactionRequestId
          payload (some s)).2 =
          Event.getChild s.path "forwardPostAuthorization" ::
            (fpaWithChild cfg env path headers transactionRequestId payload
              (some (s.path ++ ["forwardPostAuthorization"]))).2 := by rw [hEq]
      rw [h2, sendUrls_cons_getChild]
      exact fpaWithChild_sendUrls_head cfg env path headers transactionRequestId payload
        _ endpoint hE
  · intro hE
    cases span with
    | none =>
      rw [fpae_eq_none]
      exact fpaeWithChild_sendUrls cfg env path headers transactionRequestId payload
        none endpoint hE
    | some s =>
      have hg : s.hasGetChild = true := hs
      have hEq := fpae_eq_some cfg env path headers transactionRequestId payload s hg
      have h2 : (forwardPostAuthorizationError cfg env path headers transactionRequestId
          payload (some s)).2 =
          Event.getChild s.path "forwardPostAuthorizationError" ::
            (fpaeWithChild cfg env path headers transactionRequestId payload
              (some (s.path ++ ["forwardPostAuthorizationError"]))).2 := by rw [hEq]
      rw [h2, sendUrls_cons_getChild]
      exact fpaeWithChild_sendUrls cfg env path headers transactionRequestId payload
        _ endpoint hE

/-! ## Counterexamples -/

/-- C1 counterexample: with a parent span supplied, the forwarding POST fails
with `networkFail` (normalized to code 2001) and the escalation PUT then fails
with `escalNetworkFail`; the caller of `forwardPostAuthorization` observes the
escalation failure, not the original normalized forwarding failure, and the
Forwarder's child span is never finished. -/
theorem forwarder_reraise_counterexample :
    (forwardPostAuthorization cfg0 envBothFail "/p" headers0 "tx1" payload0 span0).1 =
      Except.error (ErrVal.fspiop 2001 "escalNetworkFail") ∧
    fpaTryResult cfg0 envBothFail "/p" headers0 "tx1" payload0
      (childSpanOf span0 "forwardPostAuthorization") =
      Except.error (ErrVal.raw "networkFail") ∧
    ReformatFSPIOPError (ErrVal.raw "networkFail") = ErrVal.fspiop 2001 "networkFail" ∧
    (forwardPostAuthorization cfg0 envBothFail "/p" headers0 "tx1" payload0 span0).1 ≠
      Except.error (ErrVal.fspiop 2001 "networkFail") ∧
    finishCount ["root", "forwardPostAuthorization"]
      (forwardPostAuthorization cfg0 envBothFail "/p" headers0 "tx1" payload0 span0).2 =
      0 := by
  refine ⟨rfl, rfl, rfl, ?_, rfl⟩
  decide

/-- C2 counterexample: in the same run the Forwarder's child span is created
(`getChild` event present) and the operation exits by raising, yet the span
receives zero finish calls — it is not finished exactly once on this exit
path. -/
theorem span_finish_counterexample :
    Event.getChild ["root"] "forwardPostAuthorization" ∈
      (forwardPostAuthorization cfg0 envBothFail "/p" headers0 "tx1" payload0 span0).2 ∧
    (forwardPostAuthorization cfg0 envBothFail "/p" headers0 "tx1" payload0 span0).1 =
      Except.error (ErrVal.fspiop 2001 "escalNetworkFail") ∧
    finishCount ["root", "forwardPostAuthorization"]
      (forwardPostAuthorization cfg0 envBothFail "/p" headers0 "tx1" payload0 span0).2 =
      0 := by
  refine ⟨?_, rfl, rfl⟩
  decide

/-- C4 counterexample: for a failing forward with original source `dfspA` and
original destination `dfspB`, the escalation headers carry source `switch`,
which differs from the original destination `dfspB` — the headers are not the
exact source/destination reverse of the original. -/
theorem reversed_headers_counterexample :
    escalHeaders (forwardPostAuthorization cfg0 envFwdFail "/p" headers0 "tx1" payload0
      span0).2 =
      [{ fspiopSource := FSPIOP_SWITCH_value, fspiopDestination := "dfspA",
         rest := [("accept", "application/json")] }] ∧
    headers0.fspiopDestination = "dfspB" ∧
    FSPIOP_SWITCH_value ≠ "dfspB" := by
  refine ⟨rfl, rfl, ?_⟩
  decide

/-- C8 counterexample: on a path template containing the spec's single-brace
`\x7bID\x7d` text, the URL passed to the outbound send leaves that text intact
(Mustache substitutes only double-brace tags), so the sent URL differs from
the result of literally substituting the transactionRequestId for the
single-brace placeholder. -/
theorem url_rendering_counterexample :
    sendUrls (forwardPostAuthorization cfg0 envResolves pathBrace headers0 "abc123"
      payload0 none).2 =
      ["http://dfspb.example/tx/\x7bID\x7d/authorizations"] ∧
    specRenderID ("http://dfspb.example" ++ pathBrace) "abc123" =
      "http://dfspb.example/tx/abc123/authorizations" ∧
    ("http://dfspb.example/tx/\x7bID\x7d/authorizations" : String) ≠
      "http://dfspb.example/tx/abc123/authorizations" := by
  refine ⟨rfl, rfl, ?_⟩
  decide

/-! ## Witnesses -/

/-- Witness for C1's amended theorem: when the escalation call succeeds
(`envFwdFail`), the Forwarder re-raises the original normalized failure. -/
theorem forwarder_reraise_behavior_witness :
    (forwardPostAuthorization cfg0 envFwdFail "/p" headers0 "tx1" payload0 span0).1 =
      Except.error (ErrVal.fspiop 2001 "networkFail") :=
  ((forwarder_reraise_behavior cfg0 envFwdFail "/p" headers0 "tx1" payload0 span0 rfl
    (ErrVal.raw "networkFail") rfl).1 rfl).1

/-- Witness for C2's amended theorem: on a fully successful run the Forwarder's
child span is finished exactly once. -/
theorem span_finish_discipline_witness :
    finishCount (["root"] ++ ["forwardPostAuthorization"])
      (forwardPostAuthorization cfg0 envAllOk "/p" headers0 "tx1" payload0 span0).2 = 1 :=
  ((span_finish_discipline cfg0 envAllOk "/p" headers0 "tx1" payload0 span0 rfl).2.2
    ⟨["root"], true⟩ rfl).1 rfl

/-- Witness for C3: a failing forward with `envFwdFail` produces exactly one
escalation call with the expected arguments. -/
theorem forwarder_escalates_exactly_once_witness :
    escalCalls (forwardPostAuthorization cfg0 envFwdFail "/p" headers0 "tx1" payload0
      span0).2 =
      [Event.escalCall PUT_ERROR_template (reversedHeaders headers0) "tx1"
        (Payload.apiError (toApiErrorObject (ReformatFSPIOPError (ErrVal.raw "networkFail"))
          cfg0.ERROR_HANDLING.includeCauseExtension cfg0.ERROR_HANDLING.truncateExtensions))
        (childSpanOf span0 "forwardPostAuthorization")] :=
  (forwarder_escalates_exactly_once cfg0 envFwdFail "/p" headers0 "tx1" payload0 span0
    rfl).2 (ErrVal.raw "networkFail") rfl

/-- Witness for C4's amended theorem, at the concrete escalation headers of the
`envFwdFail` run. -/
theorem escalation_headers_source_switch_witness :
    (reversedHeaders headers0).fspiopSource = FSPIOP_SWITCH_value ∧
    (reversedHeaders headers0).fspiopDestination = headers0.fspiopSource :=
  escalation_headers_source_switch cfg0 envFwdFail "/p" headers0 "tx1" payload0 span0 rfl
    (ErrVal.raw "networkFail") rfl (reversedHeaders headers0) (by decide)

/-- Witness for C5: the concrete escalation headers of the `envFwdFail` run
equal the original headers with exactly the two routing fields changed. -/
theorem escalation_headers_frame_witness :
    escalHeaders (forwardPostAuthorization cfg0 envFwdFail "/p" headers0 "tx1" payload0
      span0).2 =
      [{ fspiopSource := FSPIOP_SWITCH_value, fspiopDestination := headers0.fspiopSource,
         rest := headers0.rest }] :=
  escalation_headers_frame cfg0 envFwdFail "/p" headers0 "tx1" payload0 span0 rfl
    (ErrVal.raw "networkFail") rfl

/-- Witness for C6: a failing escalator run makes no escalation call and
raises the normalized failure. -/
theorem escalator_failure_no_further_escalation_witness :
    escalCalls (forwardPostAuthorizationError cfg0 envBothFail "/q" headers0 "tx1" payload0
      span0).2 = [] ∧
    (forwardPostAuthorizationError cfg0 envBothFail "/q" headers0 "tx1" payload0 span0).1 =
      Except.error (ErrVal.fspiop 2001 "escalNetworkFail") :=
  ⟨(escalator_failure_no_further_escalation cfg0 envBothFail "/q" headers0 "tx1" payload0
      span0 rfl).1,
    ((escalator_failure_no_further_escalation cfg0 envBothFail "/q" headers0 "tx1" payload0
      span0 rfl).2 (ErrVal.raw "escalNetworkFail") rfl).1⟩

/-- Witness for C8's amended theorem: with a resolving endpoint the URL sent is
the Mustache rendering of the concatenation. -/
theorem url_mustache_rendering_witness :
    (sendUrls (forwardPostAuthorization cfg0 envResolves pathBrace headers0 "abc123"
      payload0 none).2).head? =
      some (mustacheRenderID ("http://dfspb.example" ++ pathBrace) "abc123") :=
  (url_mustache_rendering cfg0 envResolves pathBrace headers0 "abc123" payload0 none
    "http://dfspb.example" True.intro).1 rfl

/-- Witness for C10: the failing `envFwdFail` run creates exactly the
child-then-grandchild span pair. -/
theorem escalation_span_is_grandchild_witness :
    getChildEvents (forwardPostAuthorization cfg0 envFwdFail "/p" headers0 "tx1" payload0
      (some ⟨["root"], true⟩)).2 =
      [Event.getChild ["root"] "forwardPostAuthorization",
        Event.getChild (["root"] ++ ["forwardPostAuthorization"])
          "forwardPostAuthorizationError"] :=
  (escalation_span_is_grandchild cfg0 envFwdFail "/p" headers0 "tx1" payload0 ["root"]
    (ErrVal.raw "networkFail") rfl).1

end ThirdpartyAdapter
